import Mathlib

/-!
Verification development for glean's topology-resolution and rendering engine
(`glean/cmd.py`).  The Python source is shallowly embedded below: Python
dicts become insertion-ordered association lists with unique keys, Python's
stable `sorted` becomes a stable insertion sort, string formatting becomes
string concatenation, and the filesystem observations the code makes
(`os.path.exists`, reads under `/sys/class/net`) become explicit function
parameters.  Side effects that never influence the returned path→content
map (logging, `rc-update`, `os.symlink`, SELinux restoration) are dropped;
side effects that a claim is about (bringing an interface up) are recorded
in an explicit action trace.
-/

set_option linter.unusedVariables false
set_option maxRecDepth 16000

/-! ## Python string primitives (kernel-reducible models) -/

/-- Lower-case an ASCII character (code points 65-90 are `A`-`Z`), as
Python `str.lower` does on the ASCII range (MAC addresses and device names
used here are ASCII). -/
def charLower (c : Char) : Char :=
  if 65 ≤ c.toNat ∧ c.toNat ≤ 90 then Char.ofNat (c.toNat + 32) else c

/-- Python `str.lower`, restricted to ASCII inputs. -/
def pyLower (s : String) : String :=
  ⟨s.data.map charLower⟩

/-- Whitespace for Python `str.strip`. -/
def isPySpace (c : Char) : Bool :=
  c = ' ' ∨ c = '\n' ∨ c = '\t' ∨ c = '\r'

/-- Python `str.strip()`. -/
def pyStrip (s : String) : String :=
  ⟨(((s.data.dropWhile isPySpace).reverse.dropWhile isPySpace).reverse)⟩

/-- Does `pre` occur as a leading segment of `l`? -/
def listStartsWith : List Char → List Char → Bool
  | [], _ => true
  | _ :: _, [] => false
  | x :: xs, y :: ys => x = y && listStartsWith xs ys

/-- Python `str.startswith`. -/
def pyStartsWith (s pre : String) : Bool :=
  listStartsWith pre.data s.data

/-- Does `pat` occur anywhere in `l`?  (Python `sub in s`.) -/
def listContainsSub (pat : List Char) : List Char → Bool
  | [] => listStartsWith pat []
  | c :: rest => listStartsWith pat (c :: rest) || listContainsSub pat rest

/-- Python substring containment `sub in s`. -/
def pyIn (sub s : String) : Bool :=
  listContainsSub sub.data s.data

/-- Worker for `listReplace`: emit characters, and on a match of `pat`
emit `rep` and skip the matched characters via the counter. -/
def listReplaceGo (pat rep : List Char) : Nat → List Char → List Char
  | _, [] => []
  | n + 1, _ :: rest => listReplaceGo pat rep n rest
  | 0, c :: rest =>
    if listStartsWith pat (c :: rest) ∧ pat ≠ [] then
      rep ++ listReplaceGo pat rep (pat.length - 1) rest
    else c :: listReplaceGo pat rep 0 rest

/-- Replace every occurrence of `pat` (non-empty) by `rep`, scanning left
to right without overlap: Python `str.replace`. -/
def listReplace (pat rep : List Char) (l : List Char) : List Char :=
  listReplaceGo pat rep 0 l

/-- Python `str.replace`. -/
def pyReplace (s pat rep : String) : String :=
  ⟨listReplace pat.data rep.data s.data⟩

/-- Python `sep.join(parts)` (kernel-reducible). -/
def pyJoin (sep : String) : List String → String
  | [] => ""
  | [s] => s
  | s :: rest => s ++ sep ++ pyJoin sep rest

/-- Split on a single character, Python `str.split(c)`. -/
def listSplitOnChar (sep : Char) : List Char → List (List Char)
  | [] => [[]]
  | c :: rest =>
    let tail := listSplitOnChar sep rest
    if c = sep then [] :: tail
    else
      match tail with
      | [] => [[c]]
      | t :: ts => (c :: t) :: ts

/-- Python `s.split(sep)[0]` for a one-character separator: the part of `s`
before the first occurrence of `sep`. -/
def pySplitHead (s : String) (sep : Char) : String :=
  ⟨s.data.takeWhile (fun c => c ≠ sep)⟩

/-- Python string comparison (`<=` by code point), used to model the
comparisons done by `sorted`. -/
def charsLe : List Char → List Char → Bool
  | [], _ => true
  | _ :: _, [] => false
  | x :: xs, y :: ys =>
    if x.toNat < y.toNat then true
    else if y.toNat < x.toNat then false
    else charsLe xs ys

/-- Python `a <= b` on strings. -/
def pyStrLe (a b : String) : Bool :=
  charsLe a.data b.data

/-! ## Python `sorted` (stable) -/

/-- Insert `a` into `l` before the first element `b` with `le a b`; applied
to a sorted list this is the insertion step of a stable insertion sort. -/
def pyInsert (le : α → α → Bool) (a : α) : List α → List α
  | [] => [a]
  | b :: l => if le a b then a :: b :: l else b :: pyInsert le a l

/-- Stable sort with respect to the total preorder `le`; Python's `sorted`
is also stable, so for any total preorder key the two agree. -/
def pySorted (le : α → α → Bool) : List α → List α
  | [] => []
  | a :: l => pyInsert le a (pySorted le l)

/-! ## Python dict as insertion-ordered association list -/

/-- `d[k] = v` on a Python dict: an existing key keeps its position, a new
key is appended. -/
def dictSet (k : String) (v : β) : List (String × β) → List (String × β)
  | [] => [(k, v)]
  | (k', v') :: rest =>
    if k' = k then (k, v) :: rest else (k', v') :: dictSet k v rest

/-- `d.get(k)` / `d[k]` lookup. -/
def dictGet (k : String) : List (String × β) → Option β
  | [] => none
  | (k', v) :: rest => if k' = k then some v else dictGet k rest

/-- `k in d`. -/
def dictMem (k : String) (d : List (String × β)) : Bool :=
  d.any (fun p => p.1 = k)

/-- `d1.update(d2)`: entries of `d2` written into `d1` left to right. -/
def dictUpdate (d1 d2 : List (String × β)) : List (String × β) :=
  d2.foldl (fun acc p => dictSet p.1 p.2 acc) d1

/-- Keyed-list variant of `dictSet` for dict keys that are mac tuples. -/
def tdictSet (k : List String) (v : β) : List (List String × β) → List (List String × β)
  | [] => [(k, v)]
  | (k', v') :: rest =>
    if k' = k then (k, v) :: rest else (k', v') :: tdictSet k v rest

/-- Keyed-list variant of `dictGet`. -/
def tdictGet (k : List String) : List (List String × β) → Option β
  | [] => none
  | (k', v) :: rest => if k' = k then some v else tdictGet k rest

/-- Keyed-list variant of `dictMem`. -/
def tdictMem (k : List String) (d : List (List String × β)) : Bool :=
  d.any (fun p => p.1 = k)

/-! ## Netmask arithmetic

`glean.utils` is not part of the sources under review (only `glean.cmd`
imports it), so the two prefix-length helpers are modelled from the spec.
-/

/-- Number of set bits (exact for the 16-bit groups of an IPv6 netmask and
the 8-bit octets of a dotted quad). -/
def popcount (n : Nat) : Nat :=
  (List.range 16).foldl (fun acc i => acc + n / 2 ^ i % 2) 0

/-- Parse a decimal numeral. -/
def parseDec (l : List Char) : Nat :=
  l.foldl (fun acc c => acc * 10 + (c.toNat - '0'.toNat)) 0

/-- Parse a hexadecimal numeral (lower- or upper-case digits). -/
def parseHex (l : List Char) : Nat :=
  l.foldl
    (fun acc c =>
      acc * 16 +
        (if '0' ≤ c ∧ c ≤ '9' then c.toNat - '0'.toNat
         else if 'a' ≤ c ∧ c ≤ 'f' then c.toNat - 'a'.toNat + 10
         else if 'A' ≤ c ∧ c ≤ 'F' then c.toNat - 'A'.toNat + 10
         else 0)) 0

/-- Modelled from the spec: `utils.ipv4_netmask_length` (glean.utils is not
under the reviewed sources) — the prefix length of a dotted-quad netmask,
e.g. `255.255.255.0 ↦ 24`. -/
def ipv4_netmask_length (netmask : String) : Nat :=
  ((listSplitOnChar '.' netmask.data).map (fun g => popcount (parseDec g))).sum

/-- Modelled from the spec: `utils.ipv6_netmask_length` — the prefix length
of an IPv6 netmask written in colon groups (a `::` contributes no set bits,
so plain group-wise popcount is exact for valid masks), e.g. `ffff:ffff:: ↦
32` and `:: ↦ 0`. -/
def ipv6_netmask_length (netmask : String) : Nat :=
  ((listSplitOnChar ':' netmask.data).map (fun g => popcount (parseHex g))).sum

/-- Models Python `ipaddress.ip_interface(addr + "/" + mask).with_prefixlen`
for a dotted-quad IPv4 mask: `addr/prefixlen`. -/
def with_prefixlen_v4 (addr mask : String) : String :=
  addr ++ "/" ++ toString (ipv4_netmask_length mask)

/-! ## Data model

One record models the loosely-typed interface dicts of `cmd.py`; a field
holding `none` models the key being absent.  `LinkRec`/`NetworkRec` model
the raw JSON `links`/`networks` entries (which never carry the
parser-internal `mac_address`/`raw_macs`/`bond_master` keys).
-/

/-- A `routes` entry: `network`/`netmask`/`gateway` keys. -/
structure RouteRec where
  network : Option String := none
  netmask : Option String := none
  gateway : Option String := none
deriving DecidableEq, Repr

/-- A `services` entry: `type`/`address` keys. -/
structure ServiceRec where
  stype : String := ""
  address : String := ""
deriving DecidableEq, Repr

/-- The interface dict flowing from `get_config_drive_interfaces` into the
renderers (and mutated by them).  `ltype` is the dict's `type` key. -/
structure Intf where
  id : String := ""
  ltype : String := ""
  mac_address : Option String := none
  ip_address : Option String := none
  netmask : Option String := none
  routes : Option (List RouteRec) := none
  services : Option (List ServiceRec) := none
  raw_macs : Option (List String) := none
  vlan_id : Option Nat := none
  vlan_link : Option String := none
  vlan_mac_address : Option String := none
  ethernet_mac_address : Option String := none
  bond_mode : Option String := none
  bond_links : Option (List String) := none
  bond_master : Option String := none
  bond_miimon : Option Nat := none
  bond_lacp_rate : Option String := none
  bond_xmit_hash_policy : Option String := none
  link : Option String := none
  link_mac : Option String := none
  bond_slaves : Option (List String) := none
  slaves : Option (List String) := none
deriving DecidableEq, Repr

/-- A raw `links` array entry of the metadata document. -/
structure LinkRec where
  id : String := ""
  ltype : String := ""
  ethernet_mac_address : Option String := none
  vlan_id : Option Nat := none
  vlan_link : Option String := none
  vlan_mac_address : Option String := none
  bond_mode : Option String := none
  bond_links : Option (List String) := none
  bond_miimon : Option Nat := none
  bond_lacp_rate : Option String := none
  bond_xmit_hash_policy : Option String := none
deriving DecidableEq, Repr

/-- A raw `networks` array entry of the metadata document (`id`, `link` and
`type` are always present in the format, the rest optional). -/
structure NetworkRec where
  nid : String := ""
  link : String := ""
  ntype : String := ""
  ip_address : Option String := none
  netmask : Option String := none
  routes : Option (List RouteRec) := none
  services : Option (List ServiceRec) := none
deriving DecidableEq, Repr

/-- The metadata document (`links`/`networks` arrays, either possibly
absent). -/
structure NetDoc where
  links : Option (List LinkRec) := none
  networks : Option (List NetworkRec) := none
deriving DecidableEq, Repr

/-- The interface dict a raw link starts from (same object, parser-internal
keys absent). -/
def LinkRec.toIntf (l : LinkRec) : Intf :=
  { id := l.id, ltype := l.ltype,
    ethernet_mac_address := l.ethernet_mac_address,
    vlan_id := l.vlan_id, vlan_link := l.vlan_link,
    vlan_mac_address := l.vlan_mac_address,
    bond_mode := l.bond_mode, bond_links := l.bond_links,
    bond_miimon := l.bond_miimon, bond_lacp_rate := l.bond_lacp_rate,
    bond_xmit_hash_policy := l.bond_xmit_hash_policy }

/-- The CLI arguments consumed by the renderers, plus the platform probe
`is_keyfile_format()` (cmd.py:87-92, reads `distro.os_release_info`),
bundled as one environment value. -/
structure Args where
  distro : String := ""
  use_nm : Bool := false
  skip_dns : Bool := false
  no_dhcp_fallback : Bool := false
  noop : Bool := false
  keyfile : Bool := false
deriving DecidableEq, Repr

/-- `os.path.exists` as an oracle. -/
abbrev FS := String → Bool

/-- The renderers' path→content result (`files_to_write`), an
insertion-ordered dict. -/
abbrev FileMap := List (String × String)

/-- Total model of the asserted dict access `d['k']` on an `Option` field.
`cmd.py` raises `KeyError` when such a key is absent; the code paths where
a claim depends on that failure are modelled separately (see
`rendererRawMacs`). -/
def getStr (o : Option String) : String :=
  o.getD ""

/-- Total model of an asserted list-valued dict access. -/
def getList (o : Option (List α)) : List α :=
  o.getD []

/-- cmd.py:468/:799/:1015/:1101 `interface.get('raw_macs',
[interface['mac_address']])`: Python evaluates the default list first, so a
missing `mac_address` key raises `KeyError` even when `raw_macs` is
present. -/
def rendererRawMacs (i : Intf) : Except String (List String) :=
  match i.mac_address with
  | none => .error "KeyError: mac_address"
  | some m => .ok (i.raw_macs.getD [m])

/-! ## Text-surgery helpers (models of the `re.search` insertions)

The keyfile writers locate an insertion point by regular expression and
splice text at `match.end()`.  The three patterns used are a literal
(`manual\n`), `address.*/[0-9][0-9]\n` (an `address` occurrence whose line
ends in a slash and exactly two digits; `.` does not cross the newline, so
the match ends at that line's newline), and `method=*\n` (`method`
followed by zero or more `=` and a newline).  Each helper returns the text
split right after the match of the leftmost occurrence, or `none` when the
pattern does not occur (where the source would raise `AttributeError`).
-/

/-- Split after the leftmost occurrence of the literal `pat`. -/
def splitAfterLiteral (pat : List Char) : List Char → Option (List Char × List Char)
  | [] => if pat = [] then some ([], []) else none
  | c :: rest =>
    if listStartsWith pat (c :: rest) then
      some (pat, (c :: rest).drop pat.length)
    else
      match splitAfterLiteral pat rest with
      | some (pre, post) => some (c :: pre, post)
      | none => none

/-- Is `c` an ASCII digit? -/
def isDigitCh (c : Char) : Bool :=
  '0' ≤ c ∧ c ≤ '9'

/-- Does this line (no newline inside) end with `/` and exactly two
digits? -/
def lineEndsSlashDigits (line : List Char) : Bool :=
  match line.reverse with
  | d2 :: d1 :: s :: _ => isDigitCh d2 && isDigitCh d1 && s = '/'
  | _ => false

/-- Split after the newline ending the leftmost match of
`address.*/[0-9][0-9]\n`. -/
def splitAfterAddrLine : List Char → Option (List Char × List Char)
  | [] => none
  | c :: rest =>
    let l := c :: rest
    let line := l.takeWhile (fun x => x ≠ '\n')
    if listStartsWith ("address".data) l ∧ lineEndsSlashDigits line ∧
        line.length < l.length then
      some (line ++ ['\n'], l.drop (line.length + 1))
    else
      match splitAfterAddrLine rest with
      | some (pre, post) => some (c :: pre, post)
      | none => none

/-- After a `method` occurrence: the length of a run of `=` ended by a
newline, if the text continues that way. -/
def eqsThenNewline : List Char → Option Nat
  | [] => none
  | c :: rest =>
    if c = '\n' then some 1
    else if c = '=' then (eqsThenNewline rest).map (· + 1)
    else none

/-- Split after the leftmost match of `method=*\n`. -/
def splitAfterMethodStar : List Char → Option (List Char × List Char)
  | [] => none
  | c :: rest =>
    let l := c :: rest
    match if listStartsWith ("method".data) l then eqsThenNewline (l.drop 6) else none with
    | some n => some (l.take (6 + n), l.drop (6 + n))
    | none =>
      match splitAfterMethodStar rest with
      | some (pre, post) => some (c :: pre, post)
      | none => none

/-! ## RedHat-family dialect (cmd.py:73-595) -/

/-- cmd.py:95-98: substring test on the distro name. -/
def _is_suse (distro : String) : Bool :=
  pyIn "suse" distro || pyIn "sles" distro

/-- The three path stems of cmd.py:101-116. -/
structure NetworkFiles where
  ifcfg : String
  route : String
  route6 : String

/-- cmd.py:101-116 -/
def _network_files (distro : String) : NetworkFiles :=
  if _is_suse distro then
    ⟨"/etc/sysconfig/network/ifcfg", "/etc/sysconfig/network/ifroute",
     "/etc/sysconfig/network/ifroute6"⟩
  else
    ⟨"/etc/sysconfig/network-scripts/ifcfg", "/etc/sysconfig/network-scripts/route",
     "/etc/sysconfig/network-scripts/route6"⟩

/-- cmd.py:73-76 -/
def _exists_rh_interface (fs : FS) (name distro : String) : Bool :=
  fs ((_network_files distro).ifcfg ++ "-" ++ name)

/-- cmd.py:79-83 -/
def _exists_rh_keyfile_interface (fs : FS) (name : String) : Bool :=
  fs ("/etc/NetworkManager/system-connections/" ++ name ++ ".nmconnection")

/-- cmd.py:119-154: the preamble template; every placeholder any branch
consumes is passed explicitly (Python `.format` ignores unused keyword
arguments). -/
def _network_config (args : Args) (bootproto name hwaddr method id mac_address : String) : String :=
  if _is_suse args.distro then
    "# Automatically generated, do not edit\nBOOTPROTO=" ++ bootproto ++
      "\nLLADDR=" ++ hwaddr ++ "\nSTARTMODE=auto\n"
  else if args.keyfile then
    "# Automatically generated, do not edit\n[connection]\nid=" ++ id ++
      "\nuuid=\ntype=802-3-ethernet\n\n[ipv4]\nmethod=" ++ method ++
      "\n\n[802-3-ethernet]\nmac_address=" ++ mac_address ++ "\n"
  else
    "# Automatically generated, do not edit\nDEVICE=" ++ name ++
      "\nBOOTPROTO=" ++ bootproto ++ "\nHWADDR=" ++ hwaddr ++
      "\nONBOOT=yes\nNM_CONTROLLED=" ++ (if args.use_nm then "yes" else "no") ++
      "\nTYPE=Ethernet\n"

/-- cmd.py:169-173: the numbered `BONDING_SLAVE_<n>=<name>` lines. -/
def bondingSlaveLines (n : Nat) : List String → String
  | [] => ""
  | s :: rest => "BONDING_SLAVE_" ++ toString n ++ "=" ++ s ++ "\n" ++ bondingSlaveLines (n + 1) rest

/-- cmd.py:157-197 -/
def _set_rh_bonding (args : Args) (interface : Intf) (results : String) : String :=
  if interface.bond_slaves = none ∧ interface.bond_master = none then results
  else if _is_suse args.distro then
    match interface.bond_slaves with
    | some slaves => results ++ "BONDING_MASTER=yes\n" ++ bondingSlaveLines 0 slaves
    | none => pyReplace results "=auto" "=hotplug"
  else if args.keyfile then
    if interface.bond_slaves.isSome then results ++ "type=bond\n"
    else results ++ "master=" ++ getStr interface.bond_master ++ "\nslave-type=bond\n"
  else
    if interface.bond_slaves.isSome then results
    else results ++ "SLAVE=yes\nMASTER=" ++ getStr interface.bond_master ++ "\n"

/-- cmd.py:200-217 -/
def _set_rh_vlan (args : Args) (name : String) (interface : Intf) : String :=
  match interface.vlan_id with
  | none => ""
  | some vid =>
    if _is_suse args.distro then
      "VLAN_ID=" ++ toString vid ++ "\nETHERDEVICE=" ++ pySplitHead name '.' ++ "\n"
    else if args.keyfile then
      "\n[vlan]\nid=" ++ toString vid ++ "\nparent=" ++ getStr interface.vlan_link ++ "\n"
    else
      "VLAN=yes\n"

/-- One entry of the legacy `routes` list built at cmd.py:329-342. -/
structure RhRoute where
  net : String
  mask : String
  gw : String
deriving DecidableEq, Repr

/-- cmd.py:329-342: partition the routes into default-gateway directives
(text appended to `results`) and entries for the route file; a
`0.0.0.0/0.0.0.0` route becomes `DEFROUTE`/`GATEWAY` except on SUSE where
it becomes a `default` route-file entry. -/
def rhV4RouteSplit (args : Args) : List RouteRec → String × List RhRoute
  | [] => ("", [])
  | r :: rest =>
    let tail := rhV4RouteSplit args rest
    if getStr r.network = "0.0.0.0" ∧ getStr r.netmask = "0.0.0.0" then
      if ¬ _is_suse args.distro then
        ("DEFROUTE=yes\nGATEWAY=" ++ getStr r.gateway ++ "\n" ++ tail.1, tail.2)
      else
        (tail.1, ⟨"default", "", getStr r.gateway⟩ :: tail.2)
    else
      (tail.1, ⟨getStr r.network, getStr r.netmask, getStr r.gateway⟩ :: tail.2)

/-- cmd.py:344-357: the route-file content (numbered
`ADDRESS<x>`/`NETMASK<x>`/`GATEWAY<x>` directives, or `net gw mask` lines
on SUSE). -/
def rhRouteContentAux (args : Args) (x : Nat) : List RhRoute → String
  | [] => ""
  | r :: rest =>
    (if ¬ _is_suse args.distro then
      "ADDRESS" ++ toString x ++ "=" ++ r.net ++ "\nNETMASK" ++ toString x ++ "=" ++
        r.mask ++ "\nGATEWAY" ++ toString x ++ "=" ++ r.gw ++ "\n"
    else
      pyReplace (r.net ++ " " ++ r.gw ++ " " ++ r.mask ++ "\n") " \n" "\n") ++
    rhRouteContentAux args (x + 1) rest

/-- cmd.py:313-361 -/
def _write_rh_interface (args : Args) (name : String) (interface : Intf) : FileMap :=
  let results0 := _network_config args "static" name (getStr interface.mac_address) "" "" ""
  let results1 := results0 ++ "IPADDR=" ++ getStr interface.ip_address ++ "\n" ++
      "NETMASK=" ++ getStr interface.netmask ++ "\n" ++ _set_rh_vlan args name interface
  let results2 := _set_rh_bonding args interface results1
  let rs := rhV4RouteSplit args (interface.routes.getD [])
  let results3 := results2 ++ rs.1
  (if rs.2 ≠ [] then
    [((_network_files args.distro).route ++ "-" ++ name, rhRouteContentAux args 0 rs.2)]
  else []) ++
  [((_network_files args.distro).ifcfg ++ "-" ++ name, results3)]

/-- cmd.py:364-374 -/
def _write_rh_dhcp (args : Args) (name : String) (interface : Intf) : FileMap :=
  let results0 := _network_config args "dhcp" name (getStr interface.mac_address) "" "" ""
  let results1 := results0 ++ _set_rh_vlan args name interface
  [((_network_files args.distro).ifcfg ++ "-" ++ name, _set_rh_bonding args interface results1)]

/-- cmd.py:377-389 -/
def _write_rh_keyfile_dhcp (args : Args) (name : String) (interface : Intf) : FileMap :=
  let results0 := _network_config args "" "" "" "auto" name (getStr interface.mac_address)
  let results1 := results0 ++ _set_rh_vlan args name interface
  [("/etc/NetworkManager/system-connections/" ++ name ++ ".nmconnection",
    _set_rh_bonding args interface results1)]

/-- cmd.py:392-410 -/
def _write_rh_manual (args : Args) (name : String) (interface : Intf) : FileMap :=
  let filename :=
    if args.keyfile then "/etc/NetworkManager/system-connections/" ++ name ++ ".nmconnection"
    else (_network_files args.distro).ifcfg ++ "-" ++ name
  let results0 :=
    if args.keyfile then _network_config args "" "" "" "manual" name (getStr interface.mac_address)
    else _network_config args "none" name (getStr interface.mac_address) "" "" ""
  let results1 := results0 ++ _set_rh_vlan args name interface
  [(filename, _set_rh_bonding args interface results1)]

/-- cmd.py:437-445: the numbered `route<n>=<cidr>,<gw>` entries of the
keyfile `[ipv4]` section (every route, a default one included, is turned
into such an entry). -/
def keyfileV4Routes (n : Nat) : List RouteRec → List String
  | [] => []
  | r :: rest =>
    ("route" ++ toString n ++ "=" ++
      with_prefixlen_v4 (getStr r.network) (getStr r.netmask) ++ "," ++ getStr r.gateway)
      :: keyfileV4Routes (n + 1) rest

/-- cmd.py:413-456 -/
def _write_rh_keyfile_interface (args : Args) (name : String) (interface : Intf) : FileMap :=
  let filename := "/etc/NetworkManager/system-connections/" ++ name ++ ".nmconnection"
  let results0 := _network_config args "" "" "" "manual" name (getStr interface.mac_address)
  let cidr_address := "address1=" ++
    with_prefixlen_v4 (getStr interface.ip_address) (getStr interface.netmask)
  -- cmd.py:429-431: splice the address right after the first `manual\n`
  -- (always present in the preamble).
  let results1 : String :=
    match splitAfterLiteral ("manual\n".data) results0.data with
    | some (pre, post) => ⟨pre ++ (cidr_address ++ "\n").data ++ post⟩
    | none => results0
  let results2 := results1 ++ _set_rh_vlan args name interface
  let results3 := _set_rh_bonding args interface results2
  let routes := keyfileV4Routes 1 (interface.routes.getD [])
  -- cmd.py:447-453: splice the route lines after the `address.*/[0-9][0-9]`
  -- line (a one-digit prefix length makes the search fail and the source
  -- raise AttributeError; modelled as no insertion).
  let results4 : String :=
    if routes ≠ [] then
      match splitAfterAddrLine results3.data with
      | some (pre, post) =>
        ⟨pre ++ (String.join (routes.map (· ++ "\n"))).data ++ post⟩
      | none => results3
    else results3
  [(filename, results4)]

/-- cmd.py:236-256: IPv6 routes, split into `IPV6_DEFAULTGW` directives
(network `::`) appended to the config file and `via` lines for the
`route6-` file. -/
def rhV6RouteSplit : List RouteRec → String × String
  | [] => ("", "")
  | r :: rest =>
    let tail := rhV6RouteSplit rest
    let nm := ipv6_netmask_length (getStr r.netmask)
    if getStr r.network = "::" then
      ("IPV6_DEFAULTGW=" ++ getStr r.gateway ++
        (if nm ≠ 0 then "/" ++ toString nm else "") ++ "\n" ++ tail.1, tail.2)
    else
      (tail.1,
        getStr r.network ++ (if nm ≠ 0 then "/" ++ toString nm else "") ++ " via " ++
          getStr r.gateway ++ "\n" ++ tail.2)

/-- cmd.py:220-263 (the `assert config_file in files` access is modelled
with an empty-string default). -/
def _write_rh_v6_interface (args : Args) (name : String) (interface : Intf) (files : FileMap) :
    FileMap :=
  let config_file := (_network_files args.distro).ifcfg ++ "-" ++ name
  let config_data0 := (dictGet config_file files).getD "" ++ "IPV6INIT=yes\nIPV6_PRIVACY=no\n"
  let config_data1 :=
    if interface.ltype = "ipv6_slaac" then config_data0 ++ "IPV6_AUTOCONF=yes\n"
    else config_data0 ++ "IPV6_AUTOCONF=no\n" ++ "IPV6ADDR=" ++ getStr interface.ip_address ++
      "/" ++ toString (ipv6_netmask_length (getStr interface.netmask)) ++ "\n"
  let rs := rhV6RouteSplit (interface.routes.getD [])
  let route6_file := (_network_files args.distro).route6 ++ "-" ++ name
  let files1 := if rs.2 ≠ "" then dictSet route6_file rs.2 files else files
  dictSet config_file (config_data1 ++ rs.1) files1

/-- cmd.py:285-295: the numbered `route<n>=<net>/<len>,<gw>` entries of the
keyfile `[ipv6]` section (again no default-route detection). -/
def keyfileV6Routes (n : Nat) : List RouteRec → List String
  | [] => []
  | r :: rest =>
    ("route" ++ toString n ++ "=" ++ getStr r.network ++ "/" ++
      toString (ipv6_netmask_length (getStr r.netmask)) ++ "," ++ getStr r.gateway)
      :: keyfileV6Routes (n + 1) rest

/-- cmd.py:266-310 (the `files[filename]` access is modelled with an
empty-string default; a failed insertion search, where the source raises
AttributeError, is modelled as no insertion). -/
def _write_rh_v6_keyfile_interface (args : Args) (name : String) (interface : Intf)
    (files : FileMap) : FileMap :=
  let filename := "/etc/NetworkManager/system-connections/" ++ name ++ ".nmconnection"
  let results0 : String :=
    if interface.ltype = "ipv6_slaac" ∧ getStr interface.ip_address = "" then
      "[ipv6]\nmethod=auto\n"
    else
      "[ipv6]\nmethod=manual\n" ++ "address1=" ++ getStr interface.ip_address ++ "/" ++
        toString (ipv6_netmask_length (getStr interface.netmask)) ++ "\n"
  let routesL := keyfileV6Routes 1 (interface.routes.getD [])
  let results1 : String :=
    if routesL ≠ [] then
      let str_routes := String.join (routesL.map (· ++ "\n"))
      match splitAfterAddrLine results0.data with
      | some (pre, post) => (⟨pre ++ str_routes.data ++ post⟩ : String)
      | none =>
        match splitAfterMethodStar results0.data with
        | some (pre, post) => (⟨pre ++ str_routes.data ++ post⟩ : String)
        | none => results0
    else results0
  if results1 ≠ "" then
    dictSet filename ((dictGet filename files).getD "" ++ "\n" ++ results1) files
  else files

/-- cmd.py:462-483: drop interfaces none of whose macs are in the host
inventory; on bonds record the slave device names and drop `bond_links`. -/
def rhFilterPass (sys : List (String × String)) : List (String × Intf) → List (String × Intf)
  | [] => []
  | (iname, interface) :: rest =>
    let raw_macs := interface.raw_macs.getD [getStr interface.mac_address]
    if ¬ raw_macs.any (fun m => dictMem m sys) then rhFilterPass sys rest
    else
      let interface' :=
        if interface.bond_links.isSome then
          { interface with
              bond_slaves := some ((getList interface.raw_macs).map
                (fun phy => getStr (dictGet phy sys))),
              bond_links := none }
        else interface
      (iname, interface') :: rhFilterPass sys rest

/-- cmd.py:489-505: the device name an interface is rendered under
(`<parent>.<vlan_id>` for VLANs, the declared link id for bonds, the
system name for plain interfaces). -/
def rhIfaceName (sys : List (String × String)) (iname : String) (interface : Intf) : String :=
  if interface.vlan_id.isSome then
    let raw_macs := interface.raw_macs.getD [getStr interface.mac_address]
    let vlan_raw_device :=
      match raw_macs with
      | [m] => getStr (dictGet m sys)
      | _ => getStr interface.vlan_link
    vlan_raw_device ++ "." ++ toString (interface.vlan_id.getD 0)
  else if interface.bond_mode.isSome then
    interface.link.getD iname
  else
    getStr (dictGet (getStr interface.mac_address) sys)

/-- Append to a `defaultdict(list)` group, creating the key at the end on
first use. -/
def rhGroupAdd (name : String) (i : Intf) : List (String × List Intf) → List (String × List Intf)
  | [] => [(name, [i])]
  | (n, l) :: rest =>
    if n = name then (n, l ++ [i]) :: rest else (n, l) :: rhGroupAdd name i rest

/-- cmd.py:485-512: group by resolved device name, iterating interfaces
sorted by their `id`. -/
def rhGroupPass (sys : List (String × String)) (ints : List (String × Intf)) :
    List (String × List Intf) :=
  (pySorted (fun a b => pyStrLe a.2.id b.2.id) ints).foldl
    (fun groups p => rhGroupAdd (rhIfaceName sys p.1 p.2) p.2 groups) []

/-- cmd.py:529-562: render one name group, sorted by `type` so ipv4 comes
before ipv6 (the v6 writers append into the files already written). -/
def rhRenderGroup (args : Args) (name : String) (group : List Intf) (files : FileMap) : FileMap :=
  (pySorted (fun a b => pyStrLe a.ltype b.ltype) group).foldl
    (fun files interface =>
      if interface.ltype = "ipv4" then
        if args.keyfile then dictUpdate files (_write_rh_keyfile_interface args name interface)
        else dictUpdate files (_write_rh_interface args name interface)
      else if interface.ltype = "ipv4_dhcp" then
        if args.keyfile then dictUpdate files (_write_rh_keyfile_dhcp args name interface)
        else dictUpdate files (_write_rh_dhcp args name interface)
      else if interface.ltype = "manual" then
        dictUpdate files (_write_rh_manual args name interface)
      else if interface.ltype = "ipv6" ∨ interface.ltype = "ipv6_slaac" then
        if args.keyfile then
          dictUpdate files (_write_rh_v6_keyfile_interface args name interface files)
        else dictUpdate files (_write_rh_v6_interface args name interface files)
      else files) files

/-- cmd.py:514-562 -/
def rhRenderPass (args : Args) (groups : List (String × List Intf)) : FileMap :=
  groups.foldl (fun files g => rhRenderGroup args g.1 g.2 files) []

/-- cmd.py:581-584: is this inventory mac covered by config-drive data?
(`inter_macs` over the filtered dict's `mac_address` values, `link_macs`
over the never-assigned `link_mac` key of VLAN entries). -/
def rhCoveredMac (ints : List (String × Intf)) (mac : String) : Bool :=
  (ints.map (fun p => getStr p.2.mac_address)).any (fun m => m = mac) ||
  (ints.filter (fun p => p.2.vlan_id.isSome)).any (fun p => p.2.link_mac == some mac)

/-- cmd.py:564-595: DHCP fallback over the inventory sorted by device
name.  NOTE: cmd.py:572 reads `if is_keyfile_format:` — the function
object, not a call — which is always truthy, so the keyfile existence
predicate is consulted for every distro and the `_exists_rh_interface`
branch (cmd.py:576-580) is dead code. -/
def rhFallbackPass (args : Args) (fs : FS) (ints : List (String × Intf))
    (sys : List (String × String)) (files : FileMap) : FileMap :=
  if args.no_dhcp_fallback then files
  else
    (pySorted (fun a b => pyStrLe a.2 b.2) sys).foldl
      (fun files p =>
        if _exists_rh_keyfile_interface fs p.2 then files
        else if rhCoveredMac ints p.1 then files
        else if args.keyfile then
          dictUpdate files (_write_rh_keyfile_dhcp args p.2 { mac_address := some p.1 })
        else
          dictUpdate files (_write_rh_dhcp args p.2 { mac_address := some p.1 })) files

/-- cmd.py:459-595 -/
def write_redhat_interfaces (args : Args) (fs : FS) (interfaces : List (String × Intf))
    (sys_interfaces : List (String × String)) : FileMap :=
  let ints := rhFilterPass sys_interfaces interfaces
  rhFallbackPass args fs ints sys_interfaces
    (rhRenderPass args (rhGroupPass sys_interfaces ints))

/-! ## Debian/Ubuntu dialect (cmd.py:1067-1221) -/

/-- cmd.py:1067-1086 -/
def _write_debian_bond_conf (interface_name : String) (interface : Intf)
    (sys_interfaces : List (String × String)) : String :=
  let slaves := pyJoin " "
    ((getList interface.raw_macs).map (fun mac => getStr (dictGet mac sys_interfaces)))
  (if getStr interface.mac_address ≠ "" then
    "    hwaddress " ++ getStr interface.mac_address ++ "\n"
   else "") ++
  "    bond-mode " ++ getStr interface.bond_mode ++ "\n" ++
  "    bond-miimon " ++ toString (interface.bond_miimon.getD 0) ++ "\n" ++
  "    bond-lacp-rate " ++ interface.bond_lacp_rate.getD "slow" ++ "\n" ++
  "    bond-xmit_hash_policy " ++ interface.bond_xmit_hash_policy.getD "layer2" ++ "\n" ++
  "    bond-slaves none\n" ++
  "    post-up ifenslave " ++ interface_name ++ " " ++ slaves ++ "\n" ++
  "    pre-down ifenslave -d " ++ interface_name ++ " " ++ slaves ++ "\n"

/-- cmd.py:1166-1191: the route lines of a static Debian stanza — a default
route (`0.0.0.0/0.0.0.0` or `::/::`) becomes a `gateway` directive, any
other becomes `up route add`/`down route del` commands. -/
def debianRouteLines (interface_name ltype : String) : List RouteRec → String
  | [] => ""
  | r :: rest =>
    (if (getStr r.network = "0.0.0.0" ∧ getStr r.netmask = "0.0.0.0") ∨
        (getStr r.network = "::" ∧ getStr r.netmask = "::") then
      "    gateway " ++ getStr r.gateway ++ "\n"
    else if ltype = "ipv4" then
      "    up route add -net " ++ getStr r.network ++ " netmask " ++ getStr r.netmask ++
        " gw " ++ getStr r.gateway ++ " || true\n" ++
      "    down route del -net " ++ getStr r.network ++ " netmask " ++ getStr r.netmask ++
        " gw " ++ getStr r.gateway ++ " || true\n"
    else
      "    up ip -6 route add " ++ getStr r.network ++ "/" ++
        toString (ipv6_netmask_length (getStr r.netmask)) ++ " via " ++ getStr r.gateway ++
        " dev " ++ interface_name ++ " || true\n" ++
      "    down ip -6 route del " ++ getStr r.network ++ "/" ++
        toString (ipv6_netmask_length (getStr r.netmask)) ++ " via " ++ getStr r.gateway ++
        " dev " ++ interface_name ++ " || true\n") ++
    debianRouteLines interface_name ltype rest

/-- cmd.py:1107-1122: the Debian device name and (for VLANs on a physical
link) the `vlan-raw-device`. -/
def debianIfaceName (sys : List (String × String)) (iname : String) (interface : Intf) :
    Option String × String :=
  if interface.vlan_id.isSome then
    let raw_macs := interface.raw_macs.getD [getStr interface.mac_address]
    let vlan_raw_device :=
      match raw_macs with
      | [m] => getStr (dictGet m sys)
      | _ => getStr interface.vlan_link
    (some vlan_raw_device, vlan_raw_device ++ "." ++ toString (interface.vlan_id.getD 0))
  else if interface.bond_mode.isSome then
    (none, interface.link.getD iname)
  else
    (none, getStr (dictGet (getStr interface.mac_address) sys))

/-- cmd.py:1124-1199: process one interface of the sorted main loop. -/
def debianStep (args : Args) (fs : FS) (sys : List (String × String))
    (files : FileMap) (p : String × Intf) : FileMap :=
  let iname := p.1
  let interface := p.2
  let raw_macs := interface.raw_macs.getD [getStr interface.mac_address]
  if ¬ raw_macs.any (fun m => dictMem m sys) then files
  else
    let nd := debianIfaceName sys iname interface
    let vlan_raw_device := nd.1
    let interface_name := nd.2
    let iface_path := "/etc/network/interfaces.d/" ++ interface_name ++ ".cfg"
    if fs iface_path then files
    else
      let result0 :=
        match dictGet iface_path files with
        | none => "auto " ++ interface_name ++ "\n"
        | some existing => existing
      if interface.ltype = "ipv4_dhcp" then
        let result1 := result0 ++ "iface " ++ interface_name ++ " inet dhcp\n" ++
          (match vlan_raw_device with
           | some dev => "    vlan-raw-device " ++ dev ++ "\n" ++
               "    hw-mac-address " ++ getStr interface.mac_address ++ "\n"
           | none => "")
        let result2 := result1 ++
          (if interface.bond_master.isSome then
            "    bond-master " ++ getStr interface.bond_master ++ "\n" else "") ++
          (if interface.bond_mode.isSome then
            _write_debian_bond_conf interface_name interface sys else "")
        dictSet iface_path result2 files
      else if interface.ltype = "manual" then
        let result1 := result0 ++ "iface " ++ interface_name ++ " inet manual\n" ++
          (if interface.bond_master.isSome then
            "    bond-master " ++ getStr interface.bond_master ++ "\n" else "") ++
          (if interface.bond_mode.isSome then
            _write_debian_bond_conf interface_name interface sys else "")
        dictSet iface_path result1 files
      else if interface.ltype = "ipv6" ∨ interface.ltype = "ipv4" then
        let link_type := if interface.ltype = "ipv6" then "inet6" else "inet"
        let result1 := result0 ++ "iface " ++ interface_name ++ " " ++ link_type ++
          " static\n" ++
          (match vlan_raw_device with
           | some dev => "    vlan-raw-device " ++ dev ++ "\n"
           | none => "") ++
          "    address " ++ getStr interface.ip_address ++ "\n" ++
          (if interface.ltype = "ipv4" then
            "    netmask " ++ getStr interface.netmask ++ "\n"
          else
            "    netmask " ++ toString (ipv6_netmask_length (getStr interface.netmask)) ++ "\n") ++
          debianRouteLines interface_name interface.ltype (interface.routes.getD [])
        let result2 := result1 ++
          (if interface.bond_master.isSome then
            "    bond-master " ++ getStr interface.bond_master ++ "\n" else "") ++
          (if interface.bond_mode.isSome then
            _write_debian_bond_conf interface_name interface sys else "")
        dictSet iface_path result2 files
      else
        -- cmd.py:1150-1152: unknown type, `continue`
        files

/-- cmd.py:1212-1215: is this inventory mac covered by config-drive data
(over the unfiltered `interfaces` dict)? -/
def debianCoveredMac (ints : List (String × Intf)) (mac : String) : Bool :=
  (ints.map (fun p => getStr p.2.mac_address)).any (fun m => m = mac) ||
  (ints.filter (fun p => p.2.vlan_id.isSome)).any (fun p => p.2.link_mac == some mac)

/-- cmd.py:1201-1221: DHCP fallback over the inventory sorted by device
name. -/
def debianFallbackPass (args : Args) (fs : FS) (covered : String → Bool)
    (sys : List (String × String)) (files : FileMap) : FileMap :=
  if args.no_dhcp_fallback then files
  else
    (pySorted (fun a b => pyStrLe a.2 b.2) sys).foldl
      (fun files p =>
        let iface_path := "/etc/network/interfaces.d/" ++ p.2 ++ ".cfg"
        if fs iface_path then files
        else if covered p.1 then files
        else dictSet iface_path ("auto " ++ p.2 ++ "\n" ++ "iface " ++ p.2 ++ " inet dhcp\n")
          files) files

/-- cmd.py:1089-1221 -/
def write_debian_interfaces (args : Args) (fs : FS) (interfaces : List (String × Intf))
    (sys_interfaces : List (String × String)) : FileMap :=
  let eni := "/etc/network/interfaces"
  let files0 : FileMap :=
    [(eni, "auto lo\niface lo inet loopback\n" ++ "source /etc/network/interfaces.d/*.cfg\n")]
  let files1 := (pySorted (fun a b => pyStrLe a.2.id b.2.id) interfaces).foldl
    (debianStep args fs sys_interfaces) files0
  debianFallbackPass args fs (debianCoveredMac interfaces) sys_interfaces files1

/-! ## systemd-networkd dialect (cmd.py:598-898) -/

/-- The per-file section map built by `_write_networkd_interface`: a field
holding `none` models the section key being absent from the inner dict. -/
structure NetFile where
  matchSec : Option (List String) := none
  networkSec : Option (List String) := none
  addresses : Option (List String) := none
  routes : Option (List (Option String × Option String)) := none
  netdevSec : Option (List String) := none
  vlanSec : Option (List String) := none
  bondSec : Option (List String) := none
deriving DecidableEq, Repr

/-- The networkd in-progress state: file path → section map, insertion
ordered. -/
abbrev NetFiles := List (String × NetFile)

/-- Fetch-or-create `files_struct[f]` (`if f not in files_struct:
files_struct[f] = dict()`). -/
def nfGet (f : String) (files : NetFiles) : NetFile :=
  (dictGet f files).getD {}

/-- cmd.py:598-786, body of the `for interface in interfaces` loop for one
interface. -/
def networkdStep (args : Args) (name : String) (st : NetFiles × List String) (interface : Intf) :
    NetFiles × List String :=
  let files := st.1
  let vlans := st.2
  let iname :=
    match interface.vlan_id with
    | some v => name ++ "-vlan" ++ toString v
    | none => name
  let vlans := match interface.vlan_id with
    | some _ => vlans ++ [iname]
    | none => vlans
  let network_file := "/etc/systemd/network/" ++ iname ++ ".network"
  -- [Match] lines (cmd.py:607-618)
  let nf0 := nfGet network_file files
  let nf1 := { nf0 with matchSec := some ((nf0.matchSec.getD []) ++
    ["MACAddress=" ++ getStr interface.mac_address, "Name=" ++ iname]) }
  -- [Network] creation and DNS entries (cmd.py:619-635)
  let nf2 :=
    if (interface.ltype = "ipv4_dhcp" ∨ interface.ltype = "ipv6_slaac" ∨
        interface.ltype = "ipv6_dhcpv6_stateful" ∨ interface.ltype = "manual" ∨
        interface.ltype = "ipv4" ∨ interface.ltype = "ipv6") ∨
       interface.vlan_id.isSome ∨ interface.bond_mode.isSome then
      let base := nf1.networkSec.getD []
      let dns := (interface.services.getD []).foldl
        (fun acc s =>
          if s.stype = "dns" ∧ ¬ args.skip_dns then acc ++ ["DNS=" ++ s.address] else acc)
        base
      { nf1 with networkSec := some dns }
    else nf1
  -- DHCP lines (cmd.py:636-646); the `['[Network]']` accesses are modelled
  -- with an empty default (the source would raise KeyError when absent)
  let nf3 :=
    if interface.ltype = "ipv4_dhcp" then
      let cur := nf2.networkSec.getD []
      { nf2 with networkSec := some (cur ++
        [if cur.contains "DHCP=ipv6" then "DHCP=yes" else "DHCP=ipv4"]) }
    else if interface.ltype = "ipv6_dhcpv6_stateful" then
      let cur := nf2.networkSec.getD []
      { nf2 with networkSec := some (cur ++
        [if cur.contains "DHCP=ipv4" then "DHCP=yes" else "DHCP=ipv6"]) }
    else nf2
  -- router-advertisement lines (cmd.py:647-662)
  let nf4 :=
    if interface.ltype = "ipv6_slaac" ∨ interface.ltype = "ipv6_dhcpv6-stateless" then
      let cur := (nf3.networkSec.getD []).erase "IPv6AcceptRA=no"
      { nf3 with networkSec := some (cur ++ ["IPv6AcceptRA=yes"]) }
    else
      let cur := nf3.networkSec.getD []
      if ¬ cur.contains "IPv6AcceptRA=yes" then
        { nf3 with networkSec := some (cur ++ ["IPv6AcceptRA=no"]) }
      else nf3
  -- static addresses (cmd.py:665-682)
  let nf5 :=
    if interface.ltype = "ipv4" ∨ interface.ltype = "ipv6" then
      let cur := nf4.addresses.getD []
      let cidr :=
        if interface.ltype = "ipv4" then ipv4_netmask_length (getStr interface.netmask)
        else ipv6_netmask_length (getStr interface.netmask)
      { nf4 with addresses := some (cur ++
        ["Address=" ++ getStr interface.ip_address ++ "/" ++ toString cidr]) }
    else nf4
  -- routes (cmd.py:683-706): no default-route detection, every route gets a
  -- Destination/Gateway pair
  let nf6 :=
    match interface.routes with
    | none => nf5
    | some rl =>
      let cur := nf5.routes.getD []
      let newRoutes := rl.map (fun r =>
        (r.network.map (fun n =>
          let cidr :=
            if pyIn "v6" interface.ltype then ipv6_netmask_length (getStr r.netmask)
            else ipv4_netmask_length (getStr r.netmask)
          "Destination=" ++ n ++ "/" ++ toString cidr),
         r.gateway.map (fun g => "Gateway=" ++ g)))
      { nf5 with routes := some (cur ++ newRoutes) }
  let files := dictSet network_file nf6 files
  -- netdev files (cmd.py:708-766).  NOTE: cmd.py:709 reads `if 'bond_mode'
  -- or 'vlan_id' in interface:` — the non-empty string literal
  -- `'bond_mode'` is truthy, so this branch is taken for EVERY interface,
  -- not only bonds and VLANs.
  let netdev_file := "/etc/systemd/network/" ++ iname ++ ".netdev"
  let nd0 := nfGet netdev_file files
  let nd1 := { nd0 with netdevSec := some ((nd0.netdevSec.getD []) ++
    ["Name=" ++ iname] ++
    (match interface.mac_address with
     | some m => ["MACAddress=" ++ m]
     | none => [])) }
  let nd2 :=
    match interface.vlan_id with
    | some v =>
      { nd1 with netdevSec := some ((nd1.netdevSec.getD []) ++ ["Kind=vlan"]),
                 vlanSec := some ["Id=" ++ toString v] }
    | none => nd1
  let ndfiles := dictSet netdev_file nd2 files
  let (files, nd3) :=
    match interface.bond_mode with
    | some mode =>
      let withKind := { nd2 with netdevSec := some ((nd2.netdevSec.getD []) ++ ["Kind=bond"]),
                                 bondSec := some (["Mode=" ++ mode, "LACPTransmitRate=fast"]) }
      -- slave `.network` files (cmd.py:740-752)
      let files' := (interface.slaves.getD []).foldl
        (fun fls slave =>
          let slave_net_file := "/etc/systemd/network/" ++ slave ++ ".network"
          let sf := nfGet slave_net_file fls
          dictSet slave_net_file
            { sf with networkSec := some ((sf.networkSec.getD []) ++ ["Bond=" ++ iname]) } fls)
        ndfiles
      let withPolicy :=
        match interface.bond_xmit_hash_policy with
        | some p => { withKind with bondSec := some ((withKind.bondSec.getD []) ++
            ["TransmitHashPolicy=" ++ p]) }
        | none => withKind
      let withMiimon :=
        match interface.bond_miimon with
        | some ms => { withPolicy with bondSec := some ((withPolicy.bondSec.getD []) ++
            ["MIIMonitorSec=" ++ toString ms]) }
        | none => withPolicy
      (files', withMiimon)
    | none => (ndfiles, nd2)
  (dictSet netdev_file nd3 files, vlans)

/-- cmd.py:768-786: the VLAN forward/reverse mapping appended after the
interface loop. -/
def networkdVlanMapping (st : NetFiles × List String) : NetFiles :=
  match st.2 with
  | [] => st.1
  | v0 :: _ =>
    let netdev := pySplitHead v0 '-'
    let vlan_master_file := "/etc/systemd/network/" ++ netdev ++ ".network"
    st.2.foldl
      (fun files vlan =>
        let mf := nfGet vlan_master_file files
        let files := dictSet vlan_master_file
          { mf with networkSec := some ((mf.networkSec.getD []) ++ ["VLAN=" ++ vlan]) } files
        let vlan_file := "/etc/systemd/network/" ++ vlan ++ ".network"
        let vf := nfGet vlan_file files
        dictSet vlan_file
          { vf with networkSec := some ((vf.networkSec.getD []) ++ ["VLAN=" ++ vlan]) } files)
      st.1

/-- cmd.py:598-786 -/
def _write_networkd_interface (args : Args) (name : String) (interfaces : List Intf)
    (files_struct : NetFiles) : NetFiles :=
  networkdVlanMapping (interfaces.foldl (networkdStep args name) (files_struct, []))

/-- cmd.py:895-898 -/
def _exists_networkd_interface (fs : FS) (name : String) : Bool :=
  fs ("/etc/systemd/network/" ++ name ++ ".network") ||
  fs ("/etc/systemd/network/" ++ name ++ ".netdev")

/-- `sorted(set(lines))` of cmd.py:851 etc.: the distinct lines in
code-point order. -/
def sortedSet (lines : List String) : List String :=
  pySorted pyStrLe lines.eraseDups

/-- cmd.py:847-891: serialize one section map into file text. -/
def networkdRender (nf : NetFile) : String :=
  "# Automatically generated, do not edit\n" ++
  (match nf.matchSec with
   | some lines => "[Match]\n" ++ String.join ((sortedSet lines).map (· ++ "\n")) ++ "\n"
   | none => "") ++
  (match nf.networkSec with
   | some lines => "[Network]\n" ++ String.join ((sortedSet lines).map (· ++ "\n")) ++ "\n"
   | none => "") ++
  (match nf.addresses with
   | some addrs => String.join (addrs.map (fun a => "[Address]\n" ++ a ++ "\n\n"))
   | none => "") ++
  (match nf.routes with
   | some rts => String.join (rts.map (fun r =>
       "[Route]\n" ++
       (match r.1 with | some d => d ++ "\n" | none => "") ++
       (match r.2 with | some g => g ++ "\n" | none => "") ++ "\n"))
   | none => "") ++
  (match nf.netdevSec with
   | some lines => "[NetDev]\n" ++ String.join ((sortedSet lines).map (· ++ "\n")) ++ "\n"
   | none => "") ++
  (match nf.vlanSec with
   | some lines => "[VLAN]\n" ++ String.join ((sortedSet lines).map (· ++ "\n")) ++ "\n"
   | none => "") ++
  (match nf.bondSec with
   | some lines => "[Bond]\n" ++ String.join ((sortedSet lines).map (· ++ "\n")) ++ "\n"
   | none => "")

/-- cmd.py:794-816: group matched interfaces by their raw-mac tuple. -/
def networkdGroupPass (sys : List (String × String)) (ints : List (String × Intf)) :
    List (List String × List Intf) :=
  (pySorted (fun a b => pyStrLe a.2.id b.2.id) ints).foldl
    (fun gen p =>
      let interface := p.2
      let raw_macs := interface.raw_macs.getD [getStr interface.mac_address]
      if ¬ raw_macs.any (fun m => dictMem m sys) then gen
      else
        let interface :=
          if interface.bond_mode.isSome then
            { interface with slaves := some ((getList interface.raw_macs).map
                (fun mac => getStr (dictGet mac sys))) }
          else interface
        let key := match interface.raw_macs with
          | some l => l
          | none => [getStr interface.mac_address]
        match tdictGet key gen with
        | some l => tdictSet key (l ++ [interface]) gen
        | none => gen ++ [(key, [interface])])
    []

/-- cmd.py:818-828: pick the device name of a group and render it (`next(…
if 'bond_mode' in intf)` raises StopIteration when a multi-mac group has no
bond; modelled with an empty name). -/
def networkdRenderGroups (args : Args) (sys : List (String × String))
    (gen : List (List String × List Intf)) : NetFiles :=
  gen.foldl
    (fun files g =>
      let interface_name :=
        match g.1 with
        | [m] => getStr (dictGet m sys)
        | _ =>
          match g.2.find? (fun intf => intf.bond_mode.isSome) with
          | some intf => intf.link.getD intf.id
          | none => ""
      _write_networkd_interface args interface_name g.2 files)
    []

/-- cmd.py:830-845: DHCP fallback (the existence check precedes the
`no_dhcp_fallback` check, which here sits inside the loop). -/
def networkdFallbackPass (args : Args) (fs : FS) (gen : List (List String × List Intf))
    (sys : List (String × String)) (files_struct : NetFiles) : NetFiles :=
  (pySorted (fun a b => pyStrLe a.2 b.2) sys).foldl
    (fun files p =>
      if _exists_networkd_interface fs p.2 then files
      else if tdictMem [p.1] gen then files
      else if args.no_dhcp_fallback then files
      else _write_networkd_interface args p.2
        [{ ltype := "ipv4_dhcp", mac_address := some p.1 }] files)
    files_struct

/-- cmd.py:789-892 -/
def write_networkd_interfaces (args : Args) (fs : FS) (interfaces : List (String × Intf))
    (sys_interfaces : List (String × String)) : FileMap :=
  let gen := networkdGroupPass sys_interfaces interfaces
  let files_struct := networkdFallbackPass args fs gen sys_interfaces
    (networkdRenderGroups args sys_interfaces gen)
  files_struct.foldl (fun out p => dictSet p.1 (networkdRender p.2) out) []

/-! ## Gentoo/OpenRC dialect (cmd.py:901-1064)

The `rc-update`/`os.symlink` service-enablement side effects
(`_enable_gentoo_interface`, `_setup_gentoo_network_init`,
`_create_gentoo_net_symlink_and_enable`) touch no entry of
`files_to_write` and are dropped from the embedding.
-/

/-- cmd.py:901-903 -/
def _exists_gentoo_interface (fs : FS) (name : String) : Bool :=
  fs ("/etc/conf.d/net." ++ name)

/-- cmd.py:929-943: route strings, `default via <gw>` for a
`0.0.0.0/0.0.0.0` route and `net netmask mask via gw` otherwise. -/
def gentooRoutes : List RouteRec → List String
  | [] => []
  | r :: rest =>
    (if getStr r.network = "0.0.0.0" ∧ getStr r.netmask = "0.0.0.0" then
      "default via " ++ getStr r.gateway
    else
      getStr r.network ++ " netmask " ++ getStr r.netmask ++ " via " ++ getStr r.gateway)
      :: gentooRoutes rest

/-- cmd.py:912-976 (`results` accumulation; `name` is the group device
name, `iname` the per-interface — possibly VLAN-suffixed — name). -/
def gentooStep (name : String) (st : String × List Nat) (interface : Intf) :
    String × List Nat :=
  let results := st.1
  let vlans := st.2
  let iname :=
    match interface.vlan_id with
    | some v => name ++ "_" ++ toString v
    | none => name
  let vlans := match interface.vlan_id with
    | some v => vlans ++ [v]
    | none => vlans
  let results :=
    if interface.ltype = "ipv4" then
      let base := results ++ "config_" ++ iname ++ "=\"" ++ getStr interface.ip_address ++
        " netmask " ++ getStr interface.netmask ++ "\"\n" ++
        "mac_" ++ iname ++ "=\"" ++ getStr interface.mac_address ++ "\"\n"
      let routes := gentooRoutes (interface.routes.getD [])
      if routes ≠ [] then
        base ++ "routes_" ++ name ++ "=\"" ++ pyJoin "\n" routes ++ "\"\n"
      else base
    else if interface.ltype = "manual" then
      results ++ "config_" ++ iname ++ "=\"null\"\nmac_" ++ iname ++ "=\"" ++
        getStr interface.mac_address ++ "\"\n"
    else
      results ++ "config_" ++ iname ++ "=\"dhcp\"\nmac_" ++ iname ++ "=\"" ++
        getStr interface.mac_address ++ "\"\n"
  let results :=
    if interface.bond_mode.isSome then
      results ++ "slaves_" ++ iname ++ "=\"" ++
        pyJoin " " (getList interface.slaves) ++ "\"\n" ++
        "mode_" ++ iname ++ "=\"" ++ getStr interface.bond_mode ++ "\"\n"
    else results
  (results, vlans)

/-- cmd.py:912-976 -/
def _write_gentoo_interface (name : String) (interfaces : List Intf) : FileMap :=
  let st := interfaces.foldl (gentooStep name) ("", [])
  let full_results := "# Automatically generated, do not edit\n" ++
    (if st.2 ≠ [] then
      "vlans_" ++ name ++ "=\"" ++
        pyJoin " " (st.2.map (fun v => toString v)) ++ "\"\n"
    else "") ++ st.1
  [("/etc/conf.d/net." ++ name, full_results)]

/-- cmd.py:1007-1032: group matched non-ipv6 interfaces by raw-mac
tuple. -/
def gentooGroupPass (sys : List (String × String)) (ints : List (String × Intf)) :
    List (List String × List Intf) :=
  (pySorted (fun a b => pyStrLe a.2.id b.2.id) ints).foldl
    (fun gen p =>
      let interface := p.2
      if interface.ltype = "ipv6" then gen
      else
        let raw_macs := interface.raw_macs.getD [getStr interface.mac_address]
        if ¬ raw_macs.any (fun m => dictMem m sys) then gen
        else
          let interface :=
            if interface.bond_mode.isSome then
              { interface with slaves := some ((getList interface.raw_macs).map
                  (fun mac => getStr (dictGet mac sys))) }
            else interface
          let key := match interface.raw_macs with
            | some l => l
            | none => [getStr interface.mac_address]
          match tdictGet key gen with
          | some l => tdictSet key (l ++ [interface]) gen
          | none => gen ++ [(key, [interface])])
    []

/-- cmd.py:1034-1045 -/
def gentooRenderGroups (sys : List (String × String))
    (gen : List (List String × List Intf)) : FileMap :=
  gen.foldl
    (fun files g =>
      let interface_name :=
        match g.1 with
        | [m] => getStr (dictGet m sys)
        | _ =>
          match g.2.find? (fun intf => intf.bond_mode.isSome) with
          | some intf => intf.link.getD intf.id
          | none => ""
      dictUpdate files (_write_gentoo_interface interface_name g.2))
    []

/-- cmd.py:1004-1064 -/
def write_gentoo_interfaces (args : Args) (fs : FS) (interfaces : List (String × Intf))
    (sys_interfaces : List (String × String)) : FileMap :=
  let gen := gentooGroupPass sys_interfaces interfaces
  let files := gentooRenderGroups sys_interfaces gen
  if args.no_dhcp_fallback then files
  else
    (pySorted (fun a b => pyStrLe a.2 b.2) sys_interfaces).foldl
      (fun files p =>
        if _exists_gentoo_interface fs p.2 then files
        else if tdictMem [p.1] gen then files
        else dictUpdate files
          (_write_gentoo_interface p.2 [{ ltype := "ipv4_dhcp", mac_address := some p.1 }]))
      files

/-! ## Topology parser (cmd.py:1271-1342)

Dict accesses the source performs without a default (`link['vlan_link']`,
`phys[phy]`, `link.pop('ethernet_mac_address')`, …) raise `KeyError` on
malformed documents, so the parser embedding returns `Except`.
-/

/-- cmd.py:1337 `link.update(network)`: keys present in the network dict
overwrite the link's (`id`, `link`, `type` are always present in a
network entry, the rest only when given). -/
def intfUpdate (link : Intf) (n : NetworkRec) : Intf :=
  { link with
      id := n.nid, link := some n.link, ltype := n.ntype,
      ip_address := n.ip_address <|> link.ip_address,
      netmask := n.netmask <|> link.netmask,
      routes := n.routes <|> link.routes,
      services := n.services <|> link.services }

/-- One step of cmd.py:1285-1291: put a link into its
vlan/physical/bond bucket by `type`. -/
def classifyStep (st : List (String × Intf) × List (String × Intf) × List (String × Intf))
    (l : LinkRec) : List (String × Intf) × List (String × Intf) × List (String × Intf) :=
  if l.ltype = "vlan" then (dictSet l.id l.toIntf st.1, st.2.1, st.2.2)
  else if l.ltype = "bond" then (st.1, st.2.1, dictSet l.id l.toIntf st.2.2)
  else (st.1, dictSet l.id l.toIntf st.2.1, st.2.2)

/-- cmd.py:1282-1291: classify links into vlan/bond/physical buckets
(`(vlans, phys, bonds)`). -/
def classifyLinks (links : List LinkRec) :
    List (String × Intf) × List (String × Intf) × List (String × Intf) :=
  links.foldl classifyStep ([], [], [])

/-- cmd.py:1300-1302: the lower-cased macs of a bond's physical children,
in `bond_links` order (`phys[phy]['ethernet_mac_address'].lower()`). -/
def vlanBondMacs (phys : List (String × Intf)) (acc : List String) :
    List String → Except String (List String)
  | [] => .ok acc
  | phy :: rest =>
    match dictGet phy phys with
    | none => .error "KeyError: phys[phy]"
    | some pl =>
      match pl.ethernet_mac_address with
      | none => .error "KeyError: ethernet_mac_address"
      | some m => vlanBondMacs phys (acc ++ [pyLower m]) rest

/-- cmd.py:1293-1309: resolve one VLAN link's `raw_macs`/`mac_address`
from its parent (physical: the parent's mac; bond: the ordered macs of the
bond's `bond_links` children); an unresolvable parent leaves the link
untouched after a warning. -/
def processVlan (phys bonds : List (String × Intf)) (link : Intf) : Except String Intf :=
  match link.vlan_link with
  | none => .error "KeyError: vlan_link"
  | some vl =>
    if dictMem vl phys then
      match ((dictGet vl phys).getD {}).ethernet_mac_address with
      | none => .error "KeyError: ethernet_mac_address"
      | some parentMac =>
        .ok { link with
                raw_macs := some [pyLower parentMac],
                mac_address := some (pyLower (link.vlan_mac_address.getD parentMac)),
                vlan_mac_address := none }
    else if dictMem vl bonds then
      match ((dictGet vl bonds).getD {}).ethernet_mac_address with
      | none => .error "KeyError: ethernet_mac_address"
      | some parentMac =>
        match ((dictGet vl bonds).getD {}).bond_links with
        | none => .error "KeyError: bond_links"
        | some bls =>
          match vlanBondMacs phys [] bls with
          | .error e => .error e
          | .ok macs =>
            .ok { link with
                    raw_macs := some macs,
                    mac_address := some (pyLower (link.vlan_mac_address.getD parentMac)),
                    vlan_mac_address := none }
    else
      -- cmd.py:1303-1306: `vlan_link=… not matching any NIC` warning, link
      -- left as it is (no `raw_macs`, no `mac_address`)
      .ok link

/-- The vlans dict after cmd.py:1293-1309 (each entry rewritten in
place). -/
def vlanPass (phys bonds : List (String × Intf)) :
    List (String × Intf) → Except String (List (String × Intf))
  | [] => .ok []
  | (k, v) :: rest =>
    match processVlan phys bonds v with
    | .error e => .error e
    | .ok v' =>
      match vlanPass phys bonds rest with
      | .error e => .error e
      | .ok rest' => .ok ((k, v') :: rest')

/-- cmd.py:1313-1317: walk one bond's `bond_links`, setting `bond_master`
on each child physical link and collecting the children's lower-cased
macs. -/
def bondChildren (bid : String) (st : List (String × Intf) × List String) :
    List String → Except String (List (String × Intf) × List String)
  | [] => .ok st
  | phy :: rest =>
    match dictGet phy st.1 with
    | none => .error "KeyError: phys[phy]"
    | some pl =>
      match pl.ethernet_mac_address with
      | none => .error "KeyError: ethernet_mac_address"
      | some m =>
        bondChildren bid (dictSet phy { pl with bond_master := some bid } st.1,
          st.2 ++ [pyLower m]) rest

/-- cmd.py:1311-1322: process the bonds, threading the mutated phys dict
and appending bonds without a bound network to `interfaces` as `manual`
entries. -/
def bondPass (networks : List (String × NetworkRec)) :
    List (String × Intf) → List (String × Intf) → List (String × Intf) →
    Except String (List (String × Intf) × List (String × Intf) × List (String × Intf))
  | [], phys, interfaces => .ok ([], phys, interfaces)
  | (k, link) :: rest, phys, interfaces =>
    match link.bond_links with
    | none => .error "KeyError: bond_links"
    | some bls =>
      match bondChildren link.id (phys, []) bls with
      | .error e => .error e
      | .ok st =>
        match link.ethernet_mac_address with
        | none => .error "KeyError: ethernet_mac_address"
        | some eth =>
          let link' := { link with
                          raw_macs := some st.2,
                          ethernet_mac_address := none,
                          mac_address := some (pyLower eth) }
          let lp :=
            if ¬ dictMem link'.id networks then
              let l2 := { link' with ltype := "manual" }
              (l2, dictSet l2.id l2 interfaces)
            else (link', interfaces)
          match bondPass networks rest st.1 lp.2 with
          | .error e => .error e
          | .ok out => .ok ((k, lp.1) :: out.1, out.2.1, out.2.2)

/-- cmd.py:1324-1328: normalize each physical link's mac and append those
without a bound network to `interfaces` as `manual` entries. -/
def physPass (networks : List (String × NetworkRec)) :
    List (String × Intf) → List (String × Intf) →
    Except String (List (String × Intf) × List (String × Intf))
  | [], interfaces => .ok ([], interfaces)
  | (k, link) :: rest, interfaces =>
    match link.ethernet_mac_address with
    | none => .error "KeyError: ethernet_mac_address"
    | some eth =>
      let link' := { link with
                      ethernet_mac_address := none,
                      mac_address := some (pyLower eth) }
      let lp :=
        if ¬ dictMem link'.id networks then
          let l2 := { link' with ltype := "manual" }
          (l2, dictSet l2.id l2 interfaces)
        else (link', interfaces)
      match physPass networks rest lp.2 with
      | .error e => .error e
      | .ok out => .ok ((k, lp.1) :: out.1, out.2)

/-- cmd.py:1330-1341: join each network onto its link (searched in vlans,
then phys, then bonds; a miss is skipped), mutating the link in its dict
and recording a copy under the network's id. -/
def networksPass :
    List NetworkRec →
    List (String × Intf) × List (String × Intf) × List (String × Intf) ×
      List (String × Intf) →
    List (String × Intf) × List (String × Intf) × List (String × Intf) ×
      List (String × Intf)
  | [], st => st
  | n :: rest, (vlans, phys, bonds, interfaces) =>
    match dictGet n.link vlans with
    | some l =>
      let l' := intfUpdate l n
      networksPass rest (dictSet n.link l' vlans, phys, bonds, dictSet n.nid l' interfaces)
    | none =>
      match dictGet n.link phys with
      | some l =>
        let l' := intfUpdate l n
        networksPass rest (vlans, dictSet n.link l' phys, bonds, dictSet n.nid l' interfaces)
      | none =>
        match dictGet n.link bonds with
        | some l =>
          let l' := intfUpdate l n
          networksPass rest (vlans, phys, dictSet n.link l' bonds, dictSet n.nid l' interfaces)
        | none => networksPass rest (vlans, phys, bonds, interfaces)

/-- cmd.py:1271-1342 -/
def get_config_drive_interfaces (net : NetDoc) : Except String (List (String × Intf)) :=
  match net.networks, net.links with
  | some networksArr, some linksArr =>
    let networks := networksArr.foldl (fun d n => dictSet n.link n d) []
    let cl := classifyLinks linksArr
    match vlanPass cl.2.1 cl.2.2 cl.1 with
    | .error e => .error e
    | .ok vlans' =>
      match bondPass networks cl.2.2 cl.2.1 [] with
      | .error e => .error e
      | .ok b =>
        match physPass networks b.2.1 b.2.2 with
        | .error e => .error e
        | .ok ph =>
          .ok (networksPass networksArr (vlans', ph.1, b.1, ph.2)).2.2.2
  | _, _ =>
    -- cmd.py:1274-1276: no `networks` or no `links` key — empty topology
    .ok []

/-! ## Host inventory scanner (cmd.py:1416-1600)

The filesystem observations are an oracle record; the only side effect
recorded is the `ip link set dev <iface> up` call (cmd.py:1439), which is
what the temporal claims are about.  The carrier state is indexed by an
observation instant so the 100 ms polling sweep can be modelled: the
pre-loop probes observe instant `0`, the `x`-th polling sweep instant
`x + 1`.
-/

/-- The externally visible actions of the scanner. -/
inductive SysAction where
  | setLinkUp (iface : String)
deriving DecidableEq, Repr

/-- Filesystem oracle for the scanner: the `/sys/class/net` listing, the
per-interface config-file probes `is_interface_vlan`/`is_interface_bridge`
(cmd.py:1444-1483, pure reads of existing config files), the
`addr_assign_type` and `address` attribute contents, and the time-indexed
carrier state read by `is_interface_live` (cmd.py:1416-1425). -/
structure SysFS where
  listdir : List String
  isVlan : String → Bool
  isBridge : String → Bool
  addr_assign_type : String → String
  address : String → String
  carrier : Nat → String → Bool

/-- cmd.py:51: kernel sentinel for permanent mac addresses. -/
def PERMANENT_ADDR_TYPE : String := "0"

/-- cmd.py:1428-1441: probe liveness at instant `t`; when the carrier is
down and `--noop` is not set, issue `ip link set … up` and report the
interface as live. -/
def interface_live (args : Args) (fs : SysFS) (t : Nat) (iface : String) :
    Bool × List SysAction :=
  if fs.carrier t iface then (true, [])
  else if args.noop then (false, [])
  else (true, [.setLinkUp iface])

/-- cmd.py:1504-1566: walk the candidate interfaces; returns
`(sys_interfaces, if_dict, trace, returned_early)`.  In single-interface
mode (`called_from_udev`) the mac→name entry is recorded and the whole
scan returns immediately after the permanent-address check, before any
liveness probe. -/
def scanLoop (args : Args) (fs : SysFS) (udev : Bool) :
    List String → List (String × String) × List (String × String) × List SysAction →
    List (String × String) × List (String × String) × List SysAction × Bool
  | [], (sys, ifd, tr) => (sys, ifd, tr, false)
  | iface :: rest, (sys, ifd, tr) =>
    if fs.isVlan iface then scanLoop args fs udev rest (sys, ifd, tr)
    else if fs.isBridge iface then scanLoop args fs udev rest (sys, ifd, tr)
    else if pyStrip (fs.addr_assign_type iface) ≠ PERMANENT_ADDR_TYPE then
      scanLoop args fs udev rest (sys, ifd, tr)
    else
      let mac := pyStrip (fs.address iface)
      if udev then (dictSet mac iface sys, ifd, tr, true)
      else
        let lv := interface_live args fs 0 iface
        if lv.1 then scanLoop args fs udev rest (sys, dictSet iface mac ifd, tr ++ lv.2)
        else scanLoop args fs udev rest (sys, ifd, tr ++ lv.2)

/-- cmd.py:1572-1581: one polling sweep over `if_dict` at instant `t`. -/
def pollOnce (fs : SysFS) (t : Nat) (ifd : List (String × String))
    (st : List (String × String) × List String) :
    List (String × String) × List String :=
  ifd.foldl
    (fun st p =>
      if st.2.contains p.1 then st
      else if fs.carrier t p.1 then (dictSet p.2 p.1 st.1, st.2 ++ [p.1])
      else st)
    st

/-- cmd.py:1571-1586: up to 90 sweeps, stopping once every `if_dict`
interface has been seen up. -/
def pollLoop (fs : SysFS) (ifd : List (String × String)) :
    Nat → Nat → List (String × String) × List String →
    List (String × String) × List String
  | 0, _, st => st
  | fuel + 1, t, st =>
    let st' := pollOnce fs t ifd st
    if pySorted pyStrLe st'.2 = pySorted pyStrLe (ifd.map (fun p => p.1)) then st'
    else pollLoop fs ifd fuel (t + 1) st'

/-- cmd.py:1486-1600 -/
def get_sys_interfaces (interface : Option String) (args : Args) (fs : SysFS) :
    List (String × String) × List SysAction :=
  let ignored := ["sit", "tunl", "bonding_master", "teql", "wg",
                  "ip6gre", "ip6_vti", "ip6tnl", "bond", "lo"]
  let cands :=
    match interface with
    | some i => [i]
    | none => fs.listdir.filter (fun f => ¬ ignored.any (fun p => pyStartsWith f p))
  let r := scanLoop args fs interface.isSome cands ([], [], [])
  if r.2.2.2 then (r.1, r.2.2.1)
  else ((pollLoop fs r.2.1 90 1 (r.1, [])).1, r.2.2.1)

/-- The comparison keys of the renderers' two `sorted(...)` calls
(cmd.py:486/795/1009/1096 by `x[1]['id']`, cmd.py:585/831/1051/1206 by
device name `x[1]`). -/
def leById (a b : String × Intf) : Bool := pyStrLe a.2.id b.2.id

def leByName (a b : String × String) : Bool := pyStrLe a.2 b.2

/-- cmd.py:462-483 as a per-element `filterMap` function (used to reason
about `rhFilterPass` under permutations of its input). -/
def rhFilterFn (sys : List (String × String)) (p : String × Intf) : Option (String × Intf) :=
  let interface := p.2
  let raw_macs := interface.raw_macs.getD [getStr interface.mac_address]
  if ¬ raw_macs.any (fun m => dictMem m sys) then none
  else some (p.1,
    if interface.bond_links.isSome then
      { interface with
          bond_slaves := some ((getList interface.raw_macs).map
            (fun phy => getStr (dictGet phy sys))),
          bond_links := none }
    else interface)

/-- The parser's mac normalization invariant: the `mac_address` value and
every `raw_macs` element (when the keys are present) are fixed points of
`pyLower`. -/
def LoweredMacs (i : Intf) : Prop :=
  (∀ m, i.mac_address = some m → pyLower m = m) ∧
  (∀ l, i.raw_macs = some l → ∀ x ∈ l, pyLower x = x)

/-- All values of an interface dict satisfy `LoweredMacs`. -/
def AllLowered (d : List (String × Intf)) : Prop :=
  ∀ p ∈ d, LoweredMacs p.2

/-! ### Character and string lemmas -/

theorem strAppendEmpty : ∀ s : String, s ++ "" = s
  | ⟨l⟩ => congrArg String.mk (List.append_nil l)

theorem strAppendAssoc : ∀ a b c : String, a ++ b ++ c = a ++ (b ++ c)
  | ⟨x⟩, ⟨y⟩, ⟨z⟩ => congrArg String.mk (List.append_assoc x y z)

theorem charLower_toNat (c : Char) (h : 65 ≤ c.toNat ∧ c.toNat ≤ 90) :
    (Char.ofNat (c.toNat + 32)).toNat = c.toNat + 32 := by
  have hv : (c.toNat + 32).isValidChar := Or.inl (by omega)
  simp only [Char.ofNat, hv, dite_true]
  simp [Char.ofNatAux, Char.toNat, UInt32.toNat, BitVec.toNat_ofNatLt]

theorem charLower_idem (c : Char) : charLower (charLower c) = charLower c := by
  by_cases h : 65 ≤ c.toNat ∧ c.toNat ≤ 90
  · have h2 : ¬ (65 ≤ (Char.ofNat (c.toNat + 32)).toNat ∧
        (Char.ofNat (c.toNat + 32)).toNat ≤ 90) := by
      rw [charLower_toNat c h]
      omega
    simp only [charLower, if_pos h, if_neg h2]
  · simp only [charLower, if_neg h]

theorem pyLower_idem (s : String) : pyLower (pyLower s) = pyLower s := by
  unfold pyLower
  simp only [List.map_map]
  exact congrArg String.mk (List.map_congr_left (fun a _ => charLower_idem a))

/-! ### Dict lemmas -/

theorem dictSet_forall {β : Type} {P : String × β → Prop} {d : List (String × β)} {k : String}
    {v : β} (hd : ∀ p ∈ d, P p) (hv : P (k, v)) : ∀ p ∈ dictSet k v d, P p := by
  induction d with
  | nil => simpa [dictSet]
  | cons q rest ih =>
    obtain ⟨k', v'⟩ := q
    intro p hp
    by_cases hk : k' = k
    · simp only [dictSet, if_pos hk] at hp
      rcases List.mem_cons.mp hp with h | h
      · exact h ▸ hv
      · exact hd p (List.mem_cons_of_mem _ h)
    · simp only [dictSet, if_neg hk] at hp
      rcases List.mem_cons.mp hp with h | h
      · exact h ▸ hd _ (List.mem_cons_self _ _)
      · exact ih (fun q hq => hd q (List.mem_cons_of_mem _ hq)) p h

/-! ### Parser and scanner invariant lemmas -/

theorem vlanBondMacs_lowered (phys : List (String × Intf)) :
    ∀ (bls acc : List String), (∀ x ∈ acc, pyLower x = x) →
      ∀ macs, vlanBondMacs phys acc bls = .ok macs → ∀ x ∈ macs, pyLower x = x := by
  intro bls
  induction bls with
  | nil =>
    intro acc hacc macs hm
    simp only [vlanBondMacs, Except.ok.injEq] at hm
    exact hm ▸ hacc
  | cons phy rest ih =>
    intro acc hacc macs hm
    simp only [vlanBondMacs] at hm
    split at hm
    · exact absurd hm (by simp)
    · split at hm
      · exact absurd hm (by simp)
      · refine ih _ ?_ macs hm
        intro x hx
        rcases List.mem_append.mp hx with h | h
        · exact hacc x h
        · rw [List.mem_singleton.mp h]
          exact pyLower_idem _

theorem processVlan_lowered (phys bonds : List (String × Intf)) (link : Intf)
    (hl : LoweredMacs link) :
    ∀ i, processVlan phys bonds link = .ok i → LoweredMacs i := by
  intro i hi
  unfold processVlan at hi
  split at hi
  · exact absurd hi (by simp)
  · split at hi
    · split at hi
      · exact absurd hi (by simp)
      · cases hi
        refine ⟨?_, ?_⟩
        · intro m hm
          have h := Option.some.inj hm
          exact h ▸ pyLower_idem _
        · intro l' hl' x hx
          have h := Option.some.inj hl'
          subst h
          rw [List.mem_singleton.mp hx]
          exact pyLower_idem _
    · split at hi
      · split at hi
        · exact absurd hi (by simp)
        · split at hi
          · exact absurd hi (by simp)
          · split at hi
            · exact absurd hi (by simp)
            · rename_i hvm
              cases hi
              refine ⟨?_, ?_⟩
              · intro m hm
                have h := Option.some.inj hm
                exact h ▸ pyLower_idem _
              · intro l' hl' x hx
                have h := Option.some.inj hl'
                subst h
                exact vlanBondMacs_lowered phys _ [] (by simp) _ hvm x hx
      · cases hi
        exact hl

theorem dictGet_mem {β : Type} {d : List (String × β)} {k : String} {v : β}
    (h : dictGet k d = some v) : (k, v) ∈ d := by
  induction d with
  | nil => simp [dictGet] at h
  | cons q rest ih =>
    obtain ⟨k', v'⟩ := q
    by_cases hk : k' = k
    · simp only [dictGet, if_pos hk] at h
      cases h
      subst hk
      exact List.mem_cons_self _ _
    · simp only [dictGet, if_neg hk] at h
      exact List.mem_cons_of_mem _ (ih h)

theorem vlanPass_lowered (phys bonds : List (String × Intf)) :
    ∀ (vlans : List (String × Intf)), AllLowered vlans →
      ∀ out, vlanPass phys bonds vlans = .ok out → AllLowered out := by
  intro vlans
  induction vlans with
  | nil =>
    intro _ out hout
    simp only [vlanPass, Except.ok.injEq] at hout
    subst hout
    intro p hp
    cases hp
  | cons q rest ih =>
    obtain ⟨k, v⟩ := q
    intro hall out hout
    simp only [vlanPass] at hout
    split at hout
    · exact absurd hout (by simp)
    · split at hout
      · exact absurd hout (by simp)
      · rename_i s1 v' hv' s2 rest' hrest'
        cases hout
        intro p hp
        rcases List.mem_cons.mp hp with h | h
        · exact h ▸ processVlan_lowered phys bonds v
            (hall _ (List.mem_cons_self _ _)) v' hv'
        · exact ih (fun q hq => hall q (List.mem_cons_of_mem _ hq)) rest' hrest' p h

theorem bondChildren_lowered (bid : String) :
    ∀ (bls : List String) (st : List (String × Intf) × List String),
      AllLowered st.1 → (∀ x ∈ st.2, pyLower x = x) →
      ∀ out, bondChildren bid st bls = .ok out →
        AllLowered out.1 ∧ ∀ x ∈ out.2, pyLower x = x := by
  intro bls
  induction bls with
  | nil =>
    intro st h1 h2 out hout
    simp only [bondChildren, Except.ok.injEq] at hout
    subst hout
    exact ⟨h1, h2⟩
  | cons phy rest ih =>
    intro st h1 h2 out hout
    simp only [bondChildren] at hout
    split at hout
    · exact absurd hout (by simp)
    · split at hout
      · exact absurd hout (by simp)
      · rename_i s1 pl hpl s2 m hm
        refine ih _ ?_ ?_ out hout
        · exact dictSet_forall h1
            (by
              have := h1 _ (dictGet_mem hpl)
              exact ⟨this.1, this.2⟩)
        · intro x hx
          rcases List.mem_append.mp hx with h | h
          · exact h2 x h
          · rw [List.mem_singleton.mp h]
            exact pyLower_idem _

theorem ltypeManual_lowered {i : Intf} (h : LoweredMacs i) :
    LoweredMacs { i with ltype := "manual" } :=
  ⟨h.1, h.2⟩

theorem bondPass_lowered (networks : List (String × NetworkRec)) :
    ∀ (bonds phys interfaces : List (String × Intf)),
      AllLowered phys → AllLowered interfaces →
      ∀ out, bondPass networks bonds phys interfaces = .ok out →
        AllLowered out.1 ∧ AllLowered out.2.1 ∧ AllLowered out.2.2 := by
  intro bonds
  induction bonds with
  | nil =>
    intro phys interfaces h1 h2 out hout
    simp only [bondPass, Except.ok.injEq] at hout
    subst hout
    exact ⟨fun p hp => absurd hp (by simp), h1, h2⟩
  | cons q rest ih =>
    obtain ⟨k, link⟩ := q
    intro phys interfaces h1 h2 out hout
    simp only [bondPass] at hout
    split at hout
    · exact absurd hout (by simp)
    · split at hout
      · exact absurd hout (by simp)
      · split at hout
        · exact absurd hout (by simp)
        · split at hout
          · exact absurd hout (by simp)
          · rename_i s1 bls hbls s2 stc hstc s3 eth heth s4 outr houtr
            cases hout
            have hch := bondChildren_lowered link.id bls (phys, []) h1 (by simp) stc hstc
            have hlink' : LoweredMacs
                { link with raw_macs := some stc.2, ethernet_mac_address := none,
                            mac_address := some (pyLower eth) } := by
              refine ⟨?_, ?_⟩
              · intro m hm
                have h := Option.some.inj hm
                exact h ▸ pyLower_idem _
              · intro l' hl'
                have h := Option.some.inj hl'
                exact h ▸ hch.2
            by_cases hd : dictMem link.id networks
            · simp only [hd, not_true_eq_false, if_false] at houtr ⊢
              have := ih stc.1 interfaces hch.1 h2 outr houtr
              refine ⟨?_, this.2.1, this.2.2⟩
              intro p hp
              rcases List.mem_cons.mp hp with h | h
              · exact h ▸ hlink'
              · exact this.1 p h
            · simp only [hd, not_false_eq_true, if_true] at houtr ⊢
              have hin : AllLowered (dictSet link.id
                  ({ link with raw_macs := some stc.2, ethernet_mac_address := none,
                               mac_address := some (pyLower eth),
                               ltype := "manual" } : Intf) interfaces) :=
                dictSet_forall h2 (ltypeManual_lowered hlink')
              have := ih stc.1 _ hch.1 hin outr houtr
              refine ⟨?_, this.2.1, this.2.2⟩
              intro p hp
              rcases List.mem_cons.mp hp with h | h
              · exact h ▸ ltypeManual_lowered hlink'
              · exact this.1 p h

theorem physPass_lowered (networks : List (String × NetworkRec)) :
    ∀ (phys interfaces : List (String × Intf)),
      AllLowered phys → AllLowered interfaces →
      ∀ out, physPass networks phys interfaces = .ok out →
        AllLowered out.1 ∧ AllLowered out.2 := by
  intro phys
  induction phys with
  | nil =>
    intro interfaces h1 h2 out hout
    simp only [physPass, Except.ok.injEq] at hout
    subst hout
    exact ⟨fun p hp => absurd hp (by simp), h2⟩
  | cons q rest ih =>
    obtain ⟨k, link⟩ := q
    intro interfaces h1 h2 out hout
    simp only [physPass] at hout
    split at hout
    · exact absurd hout (by simp)
    · split at hout
      · exact absurd hout (by simp)
      · rename_i s1 eth heth s2 outr houtr
        cases hout
        have hrest : AllLowered rest := fun p hp => h1 p (List.mem_cons_of_mem _ hp)
        have hlk := h1 _ (List.mem_cons_self (k, link) rest)
        have hlink' : LoweredMacs
            { link with ethernet_mac_address := none,
                        mac_address := some (pyLower eth) } := by
          refine ⟨?_, ?_⟩
          · intro m hm
            have h := Option.some.inj hm
            exact h ▸ pyLower_idem _
          · exact hlk.2
        by_cases hd : dictMem link.id networks
        · simp only [hd, not_true_eq_false, if_false] at houtr ⊢
          have := ih interfaces hrest h2 outr houtr
          refine ⟨?_, this.2⟩
          intro p hp
          rcases List.mem_cons.mp hp with h | h
          · exact h ▸ hlink'
          · exact this.1 p h
        · simp only [hd, not_false_eq_true, if_true] at houtr ⊢
          have hin : AllLowered (dictSet link.id
              ({ link with ethernet_mac_address := none,
                           mac_address := some (pyLower eth),
                           ltype := "manual" } : Intf) interfaces) :=
            dictSet_forall h2 (ltypeManual_lowered hlink')
          have := ih _ hrest hin outr houtr
          refine ⟨?_, this.2⟩
          intro p hp
          rcases List.mem_cons.mp hp with h | h
          · exact h ▸ ltypeManual_lowered hlink'
          · exact this.1 p h

theorem intfUpdate_lowered {link : Intf} (h : LoweredMacs link) (n : NetworkRec) :
    LoweredMacs (intfUpdate link n) :=
  ⟨h.1, h.2⟩

theorem networksPass_lowered :
    ∀ (ns : List NetworkRec) (st : List (String × Intf) × List (String × Intf) ×
        List (String × Intf) × List (String × Intf)),
      AllLowered st.1 → AllLowered st.2.1 → AllLowered st.2.2.1 → AllLowered st.2.2.2 →
      AllLowered (networksPass ns st).1 ∧ AllLowered (networksPass ns st).2.1 ∧
        AllLowered (networksPass ns st).2.2.1 ∧ AllLowered (networksPass ns st).2.2.2 := by
  intro ns
  induction ns with
  | nil =>
    intro st h1 h2 h3 h4
    exact ⟨h1, h2, h3, h4⟩
  | cons n rest ih =>
    intro st h1 h2 h3 h4
    obtain ⟨vlans, phys, bonds, interfaces⟩ := st
    simp only [networksPass]
    split
    · rename_i l hl
      exact ih _ (dictSet_forall h1 (intfUpdate_lowered (h1 _ (dictGet_mem hl)) n)) h2 h3
        (dictSet_forall h4 (intfUpdate_lowered (h1 _ (dictGet_mem hl)) n))
    · split
      · rename_i l hl
        exact ih _ h1 (dictSet_forall h2 (intfUpdate_lowered (h2 _ (dictGet_mem hl)) n)) h3
          (dictSet_forall h4 (intfUpdate_lowered (h2 _ (dictGet_mem hl)) n))
      · split
        · rename_i l hl
          exact ih _ h1 h2 (dictSet_forall h3 (intfUpdate_lowered (h3 _ (dictGet_mem hl)) n))
            (dictSet_forall h4 (intfUpdate_lowered (h3 _ (dictGet_mem hl)) n))
        · exact ih _ h1 h2 h3 h4

theorem toIntf_lowered2 (l : LinkRec) : LoweredMacs l.toIntf := by
  constructor
  · intro m hm
    simp [LinkRec.toIntf] at hm
  · intro l' hl
    simp [LinkRec.toIntf] at hl

theorem classifyLinks_lowered2 (links : List LinkRec) :
    AllLowered (classifyLinks links).1 ∧ AllLowered (classifyLinks links).2.1 ∧
      AllLowered (classifyLinks links).2.2 := by
  have main : ∀ st, AllLowered st.1 → AllLowered st.2.1 → AllLowered st.2.2 →
      AllLowered (links.foldl classifyStep st).1 ∧
        AllLowered (links.foldl classifyStep st).2.1 ∧
        AllLowered (links.foldl classifyStep st).2.2 := by
    induction links with
    | nil => exact fun st h1 h2 h3 => ⟨h1, h2, h3⟩
    | cons l rest ih =>
      intro st h1 h2 h3
      simp only [List.foldl_cons]
      apply ih
      all_goals
        unfold classifyStep
        split_ifs <;>
          first
            | exact dictSet_forall (by assumption) (toIntf_lowered2 l)
            | assumption
  exact main ([], [], []) (fun p hp => absurd hp (by simp))
    (fun p hp => absurd hp (by simp)) (fun p hp => absurd hp (by simp))

theorem parse_lowered (net : NetDoc) (m : List (String × Intf))
    (h : get_config_drive_interfaces net = .ok m) : ∀ p ∈ m, LoweredMacs p.2 := by
  unfold get_config_drive_interfaces at h
  split at h
  · rename_i networksArr linksArr hn hl
    dsimp only [] at h
    split at h
    · exact absurd h (by simp)
    · split at h
      · exact absurd h (by simp)
      · split at h
        · exact absurd h (by simp)
        · rename_i s1 vlans' hv s2 b hb s3 ph hp
          cases h
          have hcl := classifyLinks_lowered2 linksArr
          have hvl := vlanPass_lowered _ _ _ hcl.1 vlans' hv
          have hbp := bondPass_lowered _ _ _ _ hcl.2.1
            (fun p hp => absurd hp (by simp)) b hb
          have hpp := physPass_lowered _ _ _ hbp.2.1 hbp.2.2 ph hp
          exact (networksPass_lowered networksArr (vlans', ph.1, b.1, ph.2)
            hvl hpp.1 hbp.1 hpp.2).2.2.2
  · cases h
    exact fun p hp => absurd hp (by simp)

theorem scanLoop_inv (args : Args) (fs : SysFS) (udev : Bool) :
    ∀ (cands : List String)
      (st : List (String × String) × List (String × String) × List SysAction),
      (∀ p ∈ st.1, p.1 = pyStrip (fs.address p.2)) →
      (∀ p ∈ st.2.1, p.2 = pyStrip (fs.address p.1)) →
      (∀ p ∈ (scanLoop args fs udev cands st).1, p.1 = pyStrip (fs.address p.2)) ∧
      (∀ p ∈ (scanLoop args fs udev cands st).2.1, p.2 = pyStrip (fs.address p.1)) := by
  intro cands
  induction cands with
  | nil => exact fun st h1 h2 => ⟨h1, h2⟩
  | cons iface rest ih =>
    intro st h1 h2
    obtain ⟨sys, ifd, tr⟩ := st
    simp only [scanLoop]
    split_ifs with hv hb ht hu hl
    · exact ih _ h1 h2
    · exact ih _ h1 h2
    · exact ih _ h1 h2
    · exact ⟨dictSet_forall h1 rfl, h2⟩
    · exact ih _ h1 (dictSet_forall h2 rfl)
    · exact ih _ h1 h2


theorem pollOnce_inv (fs : SysFS) (t : Nat) :
    ∀ (ifd : List (String × String)) (st : List (String × String) × List String),
      (∀ p ∈ st.1, p.1 = pyStrip (fs.address p.2)) →
      (∀ p ∈ ifd, p.2 = pyStrip (fs.address p.1)) →
      ∀ p ∈ (pollOnce fs t ifd st).1, p.1 = pyStrip (fs.address p.2) := by
  intro ifd
  induction ifd with
  | nil => exact fun st h1 _ => h1
  | cons q rest ih =>
    intro st h1 h2
    have hq := h2 q (List.mem_cons_self _ _)
    have h2' : ∀ p ∈ rest, p.2 = pyStrip (fs.address p.1) :=
      fun p hp => h2 p (List.mem_cons_of_mem _ hp)
    simp only [pollOnce, List.foldl_cons]
    split_ifs with hc hl
    · exact ih st h1 h2'
    · exact ih _ (dictSet_forall h1 hq) h2'
    · exact ih st h1 h2'

theorem pollLoop_inv (fs : SysFS) (ifd : List (String × String))
    (hifd : ∀ p ∈ ifd, p.2 = pyStrip (fs.address p.1)) :
    ∀ (fuel t : Nat) (st : List (String × String) × List String),
      (∀ p ∈ st.1, p.1 = pyStrip (fs.address p.2)) →
      ∀ p ∈ (pollLoop fs ifd fuel t st).1, p.1 = pyStrip (fs.address p.2) := by
  intro fuel
  induction fuel with
  | zero => exact fun t st h1 => h1
  | succ n ih =>
    intro t st h1
    simp only [pollLoop]
    split
    · exact pollOnce_inv fs t ifd st h1 hifd
    · exact ih (t + 1) _ (pollOnce_inv fs t ifd st h1 hifd)

theorem get_sys_keys_verbatim (mode : Option String) (args : Args) (fs : SysFS) :
    ∀ p ∈ (get_sys_interfaces mode args fs).1, p.1 = pyStrip (fs.address p.2) := by
  have hnil : ∀ p ∈ ([] : List (String × String)), p.1 = pyStrip (fs.address p.2) :=
    fun p hp => absurd hp (by simp)
  have hnil2 : ∀ p ∈ ([] : List (String × String)), p.2 = pyStrip (fs.address p.1) :=
    fun p hp => absurd hp (by simp)
  cases mode with
  | some i =>
    unfold get_sys_interfaces
    dsimp only []
    split
    · exact (scanLoop_inv args fs _ [i] ([], [], []) hnil hnil2).1
    · exact pollLoop_inv fs _ (scanLoop_inv args fs _ [i] ([], [], []) hnil hnil2).2 90 1 _
        (scanLoop_inv args fs _ [i] ([], [], []) hnil hnil2).1
  | none =>
    unfold get_sys_interfaces
    dsimp only []
    split
    · exact (scanLoop_inv args fs _ _ ([], [], []) hnil hnil2).1
    · exact pollLoop_inv fs _ (scanLoop_inv args fs _ _ ([], [], []) hnil hnil2).2 90 1 _
        (scanLoop_inv args fs _ _ ([], [], []) hnil hnil2).1

/-! ### Stable-sort and permutation lemmas -/

section SortTheory

variable {α : Type} (le : α → α → Bool)

theorem pyInsert_mem (a b : α) : ∀ l : List α, b ∈ pyInsert le a l ↔ b = a ∨ b ∈ l
  | [] => by simp [pyInsert]
  | c :: l => by
    by_cases h : le a c = true
    · simp [pyInsert, h]
    · simp [pyInsert, h, pyInsert_mem a b l]
      tauto

theorem pyInsert_perm (a : α) : ∀ l : List α, List.Perm (pyInsert le a l) (a :: l)
  | [] => by simp [pyInsert]
  | c :: l => by
    by_cases h : le a c = true
    · simp [pyInsert, h]
    · simp only [pyInsert, h, if_false]
      exact ((pyInsert_perm a l).cons c).trans (List.Perm.swap a c l)

theorem pySorted_perm : ∀ l : List α, List.Perm (pySorted le l) l
  | [] => by simp [pySorted]
  | a :: l => by
    show List.Perm (pyInsert le a (pySorted le l)) (a :: l)
    exact (pyInsert_perm le a (pySorted le l)).trans ((pySorted_perm l).cons a)

theorem pyInsert_pairwise
    (htot : ∀ a b : α, le a b = true ∨ le b a = true)
    (htr : ∀ a b c : α, le a b = true → le b c = true → le a c = true) (a : α) :
    ∀ l : List α, l.Pairwise (fun x y => le x y = true) →
      (pyInsert le a l).Pairwise (fun x y => le x y = true)
  | [], _ => by simp [pyInsert]
  | c :: l, h => by
    rcases List.pairwise_cons.mp h with ⟨hc, hl⟩
    by_cases hac : le a c = true
    · simp only [pyInsert, hac, if_true]
      refine List.pairwise_cons.mpr ⟨?_, h⟩
      intro b hb
      rcases List.mem_cons.mp hb with rfl | hb
      · exact hac
      · exact htr a c b hac (hc b hb)
    · simp only [pyInsert, hac, if_false]
      have hca : le c a = true := (htot a c).resolve_left hac
      refine List.pairwise_cons.mpr ⟨?_, pyInsert_pairwise htot htr a l hl⟩
      intro b hb
      rcases (pyInsert_mem le a b l).mp hb with rfl | hb
      · exact hca
      · exact hc b hb

theorem pySorted_pairwise
    (htot : ∀ a b : α, le a b = true ∨ le b a = true)
    (htr : ∀ a b c : α, le a b = true → le b c = true → le a c = true) :
    ∀ l : List α, (pySorted le l).Pairwise (fun x y => le x y = true)
  | [] => by simp [pySorted]
  | a :: l => by
    show (pyInsert le a (pySorted le l)).Pairwise (fun x y => le x y = true)
    exact pyInsert_pairwise le htot htr a (pySorted le l) (pySorted_pairwise htot htr l)

theorem pyInsert_split
    (htr : ∀ a b c : α, le a b = true → le b c = true → le a c = true) (x : α) :
    ∀ S : List α, S.Pairwise (fun a b => le a b = true) →
      ∃ A B, S = A ++ B ∧ pyInsert le x S = A ++ x :: B ∧ ∀ b ∈ B, le x b = true
  | [], _ => ⟨[], [], rfl, rfl, by simp⟩
  | c :: S, h => by
    rcases List.pairwise_cons.mp h with ⟨hc, hS⟩
    by_cases hxc : le x c = true
    · refine ⟨[], c :: S, rfl, by simp [pyInsert, hxc], ?_⟩
      intro b hb
      rcases List.mem_cons.mp hb with rfl | hb
      · exact hxc
      · exact htr x c b hxc (hc b hb)
    · rcases pyInsert_split htr x S hS with ⟨A, B, h1, h2, h3⟩
      exact ⟨c :: A, B, by simp [h1], by simp [pyInsert, hxc, h2], h3⟩

theorem pyInsert_mid
    (htot : ∀ a b : α, le a b = true ∨ le b a = true)
    (htr : ∀ a b c : α, le a b = true → le b c = true → le a c = true) (x y : α) :
    ∀ (A B : List α), (∀ b ∈ B, le x b = true) →
      ∃ A' B', pyInsert le y (A ++ x :: B) = A' ++ x :: B' ∧
        pyInsert le y (A ++ B) = A' ++ B' ∧ ∀ b ∈ B', le x b = true
  | [], B, hB => by
    by_cases hyx : le y x = true
    · refine ⟨[y], B, by simp [pyInsert, hyx], ?_, hB⟩
      cases B with
      | nil => simp [pyInsert]
      | cons b B2 =>
        have : le y b = true := htr y x b hyx (hB b (by simp))
        simp [pyInsert, this]
    · have hxy : le x y = true := (htot y x).resolve_left hyx
      refine ⟨[], pyInsert le y B, by simp [pyInsert, hyx], by simp, ?_⟩
      intro b hb
      rcases (pyInsert_mem le y b B).mp hb with rfl | hb
      · exact hxy
      · exact hB b hb
  | a :: A, B, hB => by
    by_cases hya : le y a = true
    · exact ⟨y :: a :: A, B, by simp [pyInsert, hya], by simp [pyInsert, hya], hB⟩
    · rcases pyInsert_mid htot htr x y A B hB with ⟨A', B', h1, h2, h3⟩
      refine ⟨a :: A', B', ?_, ?_, h3⟩
      · show pyInsert le y (a :: (A ++ x :: B)) = a :: A' ++ x :: B'
        simp [pyInsert, hya, h1]
      · show pyInsert le y (a :: (A ++ B)) = a :: A' ++ B'
        simp [pyInsert, hya, h2]

theorem pySorted_mid
    (htot : ∀ a b : α, le a b = true ∨ le b a = true)
    (htr : ∀ a b c : α, le a b = true → le b c = true → le a c = true) (x : α) :
    ∀ (l1 l2 : List α),
      ∃ A B, pySorted le (l1 ++ x :: l2) = A ++ x :: B ∧
        pySorted le (l1 ++ l2) = A ++ B ∧ ∀ b ∈ B, le x b = true
  | [], l2 => by
    rcases pyInsert_split le htr x (pySorted le l2) (pySorted_pairwise le htot htr l2) with
      ⟨A, B, h1, h2, h3⟩
    exact ⟨A, B, h2, h1, h3⟩
  | a :: l1, l2 => by
    rcases pySorted_mid htot htr x l1 l2 with ⟨A, B, h1, h2, h3⟩
    have g1 : pySorted le ((a :: l1) ++ x :: l2) = pyInsert le a (A ++ x :: B) := by
      show pyInsert le a (pySorted le (l1 ++ x :: l2)) = pyInsert le a (A ++ x :: B)
      rw [h1]
    have g2 : pySorted le ((a :: l1) ++ l2) = pyInsert le a (A ++ B) := by
      show pyInsert le a (pySorted le (l1 ++ l2)) = pyInsert le a (A ++ B)
      rw [h2]
    rcases pyInsert_mid le htot htr x a A B h3 with ⟨A', B', k1, k2, k3⟩
    exact ⟨A', B', by rw [g1, k1], by rw [g2, k2], k3⟩

theorem sorted_perm_eq :
    ∀ (l1 l2 : List α), List.Perm l1 l2 →
      l1.Pairwise (fun x y => le x y = true) → l2.Pairwise (fun x y => le x y = true) →
      (∀ a ∈ l1, ∀ b ∈ l1, le a b = true → le b a = true → a = b) → l1 = l2
  | [], l2, hp, _, _, _ => hp.nil_eq
  | a :: l1, l2, hp, h1, h2, anti => by
    cases l2 with
    | nil => exact absurd hp.symm (by simp)
    | cons b l2 =>
      rcases List.pairwise_cons.mp h1 with ⟨ha, h1'⟩
      rcases List.pairwise_cons.mp h2 with ⟨hb, h2'⟩
      have hab : a = b := by
        by_cases hEq : a = b
        · exact hEq
        · have hbmem : b ∈ a :: l1 := hp.mem_iff.mpr (by simp)
          have hamem : a ∈ b :: l2 := hp.mem_iff.mp (by simp)
          have hb1 : b ∈ l1 := by
            rcases List.mem_cons.mp hbmem with h | h
            · exact absurd h.symm hEq
            · exact h
          have ha2 : a ∈ l2 := by
            rcases List.mem_cons.mp hamem with h | h
            · exact absurd h hEq
            · exact h
          exact anti a (by simp) b (by simp [hb1]) (ha b hb1) (hb a ha2)
      subst hab
      have htl : List.Perm l1 l2 := hp.cons_inv
      have : l1 = l2 := sorted_perm_eq l1 l2 htl h1' h2'
        (fun x hx y hy => anti x (by simp [hx]) y (by simp [hy]))
      rw [this]

theorem pySorted_perm_eq
    (htot : ∀ a b : α, le a b = true ∨ le b a = true)
    (htr : ∀ a b c : α, le a b = true → le b c = true → le a c = true)
    (l1 l2 : List α) (hp : List.Perm l1 l2)
    (anti : ∀ a ∈ l1, ∀ b ∈ l1, le a b = true → le b a = true → a = b) :
    pySorted le l1 = pySorted le l2 := by
  refine sorted_perm_eq le (pySorted le l1) (pySorted le l2)
    (((pySorted_perm le l1).trans hp).trans (pySorted_perm le l2).symm)
    (pySorted_pairwise le htot htr l1) (pySorted_pairwise le htot htr l2) ?_
  intro a hai b hbi
  exact anti a ((pySorted_perm le l1).mem_iff.mp hai) b ((pySorted_perm le l1).mem_iff.mp hbi)

end SortTheory

theorem charsLe_total : ∀ x y : List Char, charsLe x y = true ∨ charsLe y x = true
  | [], _ => Or.inl rfl
  | _ :: _, [] => Or.inr rfl
  | a :: x, b :: y => by
    by_cases h1 : a.toNat < b.toNat
    · exact Or.inl (by simp [charsLe, h1])
    · by_cases h2 : b.toNat < a.toNat
      · exact Or.inr (by simp [charsLe, h2])
      · rcases charsLe_total x y with h | h
        · exact Or.inl (by simp [charsLe, h1, h2, h])
        · exact Or.inr (by simp [charsLe, h1, h2, h])

theorem charsLe_trans : ∀ x y z : List Char,
    charsLe x y = true → charsLe y z = true → charsLe x z = true
  | [], _, _, _, _ => rfl
  | a :: x, [], _, hxy, _ => by simp [charsLe] at hxy
  | a :: x, b :: y, [], _, hyz => by simp [charsLe] at hyz
  | a :: x, b :: y, c :: z, hxy, hyz => by
    simp only [charsLe] at hxy hyz ⊢
    by_cases hab : a.toNat < b.toNat
    · have hbcle : b.toNat ≤ c.toNat := by
        by_cases hbc : b.toNat < c.toNat
        · omega
        · by_cases hcb : c.toNat < b.toNat
          · simp [hbc, hcb] at hyz
          · omega
      have hac : a.toNat < c.toNat := by omega
      simp [hac]
    · by_cases hba : b.toNat < a.toNat
      · simp [hab, hba] at hxy
      · have hab2 : a.toNat = b.toNat := by omega
        by_cases hbc : b.toNat < c.toNat
        · have hac : a.toNat < c.toNat := by omega
          simp [hac]
        · by_cases hcb : c.toNat < b.toNat
          · simp [hbc, hcb] at hyz
          · have hxy2 : charsLe x y = true := by simpa [hab, hba] using hxy
            have hyz2 : charsLe y z = true := by simpa [hbc, hcb] using hyz
            have : ¬ a.toNat < c.toNat := by omega
            have hca : ¬ c.toNat < a.toNat := by omega
            simp [this, hca, charsLe_trans x y z hxy2 hyz2]

theorem charsLe_antisymm : ∀ x y : List Char,
    charsLe x y = true → charsLe y x = true → x = y
  | [], [], _, _ => rfl
  | [], _ :: _, _, hyx => by simp [charsLe] at hyx
  | _ :: _, [], hxy, _ => by simp [charsLe] at hxy
  | a :: x, b :: y, hxy, hyx => by
    simp only [charsLe] at hxy hyx
    by_cases hab : a.toNat < b.toNat
    · have : ¬ b.toNat < a.toNat := by omega
      simp [hab, this] at hyx
    · by_cases hba : b.toNat < a.toNat
      · simp [hab, hba] at hxy
      · have ha : a = b := Char.eq_of_val_eq (UInt32.ext (by
          have : a.toNat = b.toNat := by omega
          simpa [Char.toNat] using this))
        have hx : x = y := charsLe_antisymm x y
          (by simpa [hab, hba] using hxy) (by simpa [hab, hba] using hyx)
        rw [ha, hx]

theorem pyStrLe_total (a b : String) : pyStrLe a b = true ∨ pyStrLe b a = true :=
  charsLe_total a.data b.data

theorem pyStrLe_trans (a b c : String) :
    pyStrLe a b = true → pyStrLe b c = true → pyStrLe a c = true :=
  charsLe_trans a.data b.data c.data

theorem pyStrLe_antisymm : ∀ a b : String,
    pyStrLe a b = true → pyStrLe b a = true → a = b
  | ⟨x⟩, ⟨y⟩, hxy, hyx => congrArg String.mk (charsLe_antisymm x y hxy hyx)

theorem nodup_map_inj {α β : Type} {f : α → β} :
    ∀ {l : List α}, (l.map f).Nodup → ∀ a ∈ l, ∀ b ∈ l, f a = f b → a = b
  | [], _, a, ha, _, _, _ => absurd ha (by simp)
  | c :: l, h, a, ha, b, hb, hfab => by
    rw [List.map_cons] at h
    rcases List.nodup_cons.mp h with ⟨hc, hl⟩
    rcases List.mem_cons.mp ha with rfl | ha' <;> rcases List.mem_cons.mp hb with rfl | hb'
    · rfl
    · exact absurd (by rw [hfab]; exact List.mem_map_of_mem f hb') hc
    · exact absurd (by rw [← hfab]; exact List.mem_map_of_mem f ha') hc
    · exact nodup_map_inj hl a ha' b hb' hfab

theorem dictMem_perm {β : Type} {d1 d2 : List (String × β)} (hp : List.Perm d1 d2)
    (k : String) : dictMem k d1 = dictMem k d2 := by
  have : ∀ d1 d2 : List (String × β), List.Perm d1 d2 →
      dictMem k d1 = true → dictMem k d2 = true := by
    intro d1 d2 hp h
    simp only [dictMem, List.any_eq_true] at h ⊢
    rcases h with ⟨p, hpm, hpk⟩
    exact ⟨p, hp.mem_iff.mp hpm, hpk⟩
  rcases h1 : dictMem k d1 with _ | _ <;> rcases h2 : dictMem k d2 with _ | _
  · rfl
  · exact absurd (this d2 d1 hp.symm h2) (by simp [h1])
  · exact absurd (this d1 d2 hp h1) (by simp [h2])
  · rfl

theorem dictGet_perm {β : Type} :
    ∀ {d1 d2 : List (String × β)}, List.Perm d1 d2 →
      (d1.map Prod.fst).Nodup → ∀ k, dictGet k d1 = dictGet k d2 := by
  intro d1 d2 hp
  induction hp with
  | nil => intro _ k; rfl
  | cons p hp ih =>
    intro hn k
    rw [List.map_cons] at hn
    rcases List.nodup_cons.mp hn with ⟨_, hn'⟩
    show (if p.1 = k then some p.2 else _) = (if p.1 = k then some p.2 else _)
    by_cases h : p.1 = k
    · simp [h]
    · simpa [h] using ih hn' k
  | swap p q l =>
    intro hn k
    have hpq : q.1 ≠ p.1 := by
      rw [List.map_cons, List.map_cons] at hn
      rcases List.nodup_cons.mp hn with ⟨hq, _⟩
      intro h
      exact hq (by simp [h])
    show (if q.1 = k then some q.2 else if p.1 = k then some p.2 else dictGet k l) =
      (if p.1 = k then some p.2 else if q.1 = k then some q.2 else dictGet k l)
    by_cases h1 : p.1 = k <;> by_cases h2 : q.1 = k
    · exact absurd (h2.trans h1.symm) hpq
    · simp [h1, h2]
    · simp [h1, h2]
    · simp [h1, h2]
  | trans h1 h2 ih1 ih2 =>
    intro hn k
    have hn2 := (h1.map Prod.fst).nodup_iff.mp hn
    exact (ih1 hn k).trans (ih2 hn2 k)

theorem mem_pySorted {α : Type} (le : α → α → Bool) (a : α) (l : List α) :
    a ∈ pySorted le l ↔ a ∈ l :=
  (pySorted_perm le l).mem_iff

theorem foldl_middle_skip {α β : Type} (f : β → α → β) (x : α)
    (hx : ∀ acc, f acc x = acc) (A B : List α) (acc : β) :
    List.foldl f acc (A ++ x :: B) = List.foldl f acc (A ++ B) := by
  rw [List.foldl_append, List.foldl_append, List.foldl_cons, hx]

theorem foldl_congr_mem {α β : Type} (f g : β → α → β) :
    ∀ (S : List α) (acc : β), (∀ acc' p, p ∈ S → f acc' p = g acc' p) →
      List.foldl f acc S = List.foldl g acc S
  | [], acc, _ => rfl
  | p :: S, acc, h => by
    rw [List.foldl_cons, List.foldl_cons, h acc p (by simp)]
    exact foldl_congr_mem f g S (g acc p)
      (fun acc' p' hp' => h acc' p' (List.mem_cons_of_mem p hp'))





theorem leById_total : ∀ a b, leById a b = true ∨ leById b a = true :=
  fun a b => pyStrLe_total a.2.id b.2.id

theorem leById_trans : ∀ a b c, leById a b = true → leById b c = true → leById a c = true :=
  fun a b c => pyStrLe_trans a.2.id b.2.id c.2.id

theorem leByName_total : ∀ a b, leByName a b = true ∨ leByName b a = true :=
  fun a b => pyStrLe_total a.2 b.2

theorem leByName_trans : ∀ a b c, leByName a b = true → leByName b c = true → leByName a c = true :=
  fun a b c => pyStrLe_trans a.2 b.2 c.2

theorem dictMem_of_mem {β : Type} {p : String × β} {d : List (String × β)} (hp : p ∈ d) :
    dictMem p.1 d = true := by
  simp only [dictMem, List.any_eq_true]
  exact ⟨p, hp, by simp⟩

theorem rhFilterPass_mid (sys : List (String × String)) (k : String) (x : Intf)
    (hun : (x.raw_macs.getD [getStr x.mac_address]).any (fun m => dictMem m sys) = false) :
    ∀ l1 l2 : List (String × Intf),
      rhFilterPass sys (l1 ++ (k, x) :: l2) = rhFilterPass sys (l1 ++ l2)
  | [], l2 => by simp [rhFilterPass, hun]
  | (k', y) :: l1, l2 => by
    show rhFilterPass sys ((k', y) :: (l1 ++ (k, x) :: l2)) =
      rhFilterPass sys ((k', y) :: (l1 ++ l2))
    simp only [rhFilterPass]
    rw [rhFilterPass_mid sys k x hun l1 l2]

theorem write_redhat_mid (args : Args) (fs : FS) (sys : List (String × String))
    (k : String) (x : Intf) (l1 l2 : List (String × Intf))
    (hun : (x.raw_macs.getD [getStr x.mac_address]).any (fun m => dictMem m sys) = false) :
    write_redhat_interfaces args fs (l1 ++ (k, x) :: l2) sys =
      write_redhat_interfaces args fs (l1 ++ l2) sys := by
  unfold write_redhat_interfaces
  rw [rhFilterPass_mid sys k x hun l1 l2]

theorem networkdGroupPass_mid (sys : List (String × String))
    (k : String) (x : Intf) (l1 l2 : List (String × Intf))
    (hun : (x.raw_macs.getD [getStr x.mac_address]).any (fun m => dictMem m sys) = false) :
    networkdGroupPass sys (l1 ++ (k, x) :: l2) = networkdGroupPass sys (l1 ++ l2) := by
  unfold networkdGroupPass
  rcases pySorted_mid leById leById_total leById_trans (k, x) l1 l2 with ⟨A, B, h1, h2, _⟩
  rw [show (fun a b : String × Intf => pyStrLe a.2.id b.2.id) = leById from rfl, h1, h2,
    foldl_middle_skip]
  intro acc
  simp [hun]

theorem gentooGroupPass_mid (sys : List (String × String))
    (k : String) (x : Intf) (l1 l2 : List (String × Intf))
    (hun : (x.raw_macs.getD [getStr x.mac_address]).any (fun m => dictMem m sys) = false) :
    gentooGroupPass sys (l1 ++ (k, x) :: l2) = gentooGroupPass sys (l1 ++ l2) := by
  unfold gentooGroupPass
  rcases pySorted_mid leById leById_total leById_trans (k, x) l1 l2 with ⟨A, B, h1, h2, _⟩
  rw [show (fun a b : String × Intf => pyStrLe a.2.id b.2.id) = leById from rfl, h1, h2,
    foldl_middle_skip]
  intro acc
  by_cases hv6 : x.ltype = "ipv6" <;> simp [hv6, hun]

theorem write_networkd_mid (args : Args) (fs : FS) (sys : List (String × String))
    (k : String) (x : Intf) (l1 l2 : List (String × Intf))
    (hun : (x.raw_macs.getD [getStr x.mac_address]).any (fun m => dictMem m sys) = false) :
    write_networkd_interfaces args fs (l1 ++ (k, x) :: l2) sys =
      write_networkd_interfaces args fs (l1 ++ l2) sys := by
  unfold write_networkd_interfaces
  rw [networkdGroupPass_mid sys k x l1 l2 hun]

theorem write_gentoo_mid (args : Args) (fs : FS) (sys : List (String × String))
    (k : String) (x : Intf) (l1 l2 : List (String × Intf))
    (hun : (x.raw_macs.getD [getStr x.mac_address]).any (fun m => dictMem m sys) = false) :
    write_gentoo_interfaces args fs (l1 ++ (k, x) :: l2) sys =
      write_gentoo_interfaces args fs (l1 ++ l2) sys := by
  unfold write_gentoo_interfaces
  rw [gentooGroupPass_mid sys k x l1 l2 hun]

theorem debianCoveredMac_mid (sys : List (String × String)) (k : String) (x : Intf)
    (l1 l2 : List (String × Intf))
    (hxmac : dictMem (getStr x.mac_address) sys = false)
    (hxlink : ∀ lm, x.link_mac = some lm → dictMem lm sys = false) :
    ∀ m, dictMem m sys = true →
      debianCoveredMac (l1 ++ (k, x) :: l2) m = debianCoveredMac (l1 ++ l2) m := by
  intro m hm
  have e1 : (getStr x.mac_address = m) = False := by
    by_cases h : getStr x.mac_address = m
    · rw [h, hm] at hxmac
      cases hxmac
    · simp [h]
  have e2 : (x.link_mac == some m) = false := by
    cases hl : x.link_mac with
    | none => rfl
    | some lm =>
      have := hxlink lm hl
      by_cases h : lm = m
      · rw [h, hm] at this
        cases this
      · simp [h]
  simp only [debianCoveredMac, List.map_append, List.filter_append, List.any_append,
    List.map_cons, List.any_cons, e1, e2, List.filter_cons]
  by_cases hv : x.vlan_id.isSome <;> simp [hv, e1, e2]

theorem write_debian_mid (args : Args) (fs : FS) (sys : List (String × String))
    (k : String) (x : Intf) (l1 l2 : List (String × Intf))
    (hun : (x.raw_macs.getD [getStr x.mac_address]).any (fun m => dictMem m sys) = false)
    (hxmac : dictMem (getStr x.mac_address) sys = false)
    (hxlink : ∀ lm, x.link_mac = some lm → dictMem lm sys = false) :
    write_debian_interfaces args fs (l1 ++ (k, x) :: l2) sys =
      write_debian_interfaces args fs (l1 ++ l2) sys := by
  unfold write_debian_interfaces
  rcases pySorted_mid leById leById_total leById_trans (k, x) l1 l2 with ⟨A, B, h1, h2, _⟩
  rw [show (fun a b : String × Intf => pyStrLe a.2.id b.2.id) = leById from rfl, h1, h2]
  dsimp only []
  rw [foldl_middle_skip (debianStep args fs sys) (k, x)
    (fun acc => by simp [debianStep, hun]) A B]
  unfold debianFallbackPass
  by_cases hnd : args.no_dhcp_fallback
  · simp [hnd]
  · simp only [hnd, if_false]
    refine foldl_congr_mem _ _ _ _ ?_
    intro acc p hp
    have hpm : dictMem p.1 sys = true :=
      dictMem_of_mem ((mem_pySorted _ p sys).mp hp)
    rw [debianCoveredMac_mid sys k x l1 l2 hxmac hxlink p.1 hpm]


theorem any_perm {γ : Type} {l1 l2 : List γ} (h : List.Perm l1 l2) (f : γ → Bool) :
    l1.any f = l2.any f := by
  have key : ∀ a b : List γ, List.Perm a b → a.any f = true → b.any f = true := by
    intro a b hp ha
    simp only [List.any_eq_true] at ha ⊢
    rcases ha with ⟨p, hpm, hpf⟩
    exact ⟨p, hp.mem_iff.mp hpm, hpf⟩
  rcases h1 : l1.any f with _ | _ <;> rcases h2 : l2.any f with _ | _
  · rfl
  · exact absurd (key l2 l1 h.symm h2) (by simp [h1])
  · exact absurd (key l1 l2 h h1) (by simp [h2])
  · rfl

theorem leById_anti_of_nodup {l : List (String × Intf)}
    (h : (l.map (fun p => p.2.id)).Nodup) :
    ∀ a ∈ l, ∀ b ∈ l, leById a b = true → leById b a = true → a = b :=
  fun a ha b hb h1 h2 => nodup_map_inj h a ha b hb (pyStrLe_antisymm _ _ h1 h2)

theorem leByName_anti_of_nodup {l : List (String × String)}
    (h : (l.map Prod.snd).Nodup) :
    ∀ a ∈ l, ∀ b ∈ l, leByName a b = true → leByName b a = true → a = b :=
  fun a ha b hb h1 h2 => nodup_map_inj h a ha b hb (pyStrLe_antisymm _ _ h1 h2)

theorem rhIfaceName_congr {sys1 sys2 : List (String × String)}
    (hg : ∀ m, dictGet m sys1 = dictGet m sys2) (iname : String) (i : Intf) :
    rhIfaceName sys1 iname i = rhIfaceName sys2 iname i := by
  unfold rhIfaceName
  simp only [hg]

theorem rhFilterPass_congr {sys1 sys2 : List (String × String)}
    (hg : ∀ m, dictGet m sys1 = dictGet m sys2)
    (hm : ∀ m, dictMem m sys1 = dictMem m sys2) :
    ∀ l, rhFilterPass sys1 l = rhFilterPass sys2 l
  | [] => rfl
  | (k, i) :: l => by
    simp only [rhFilterPass, hg, hm]
    rw [rhFilterPass_congr hg hm l]

theorem rhGroupPass_congr {sys1 sys2 : List (String × String)}
    (hg : ∀ m, dictGet m sys1 = dictGet m sys2) (ints : List (String × Intf)) :
    rhGroupPass sys1 ints = rhGroupPass sys2 ints := by
  unfold rhGroupPass
  refine foldl_congr_mem _ _ _ _ ?_
  intro acc p hp
  rw [rhIfaceName_congr hg]

theorem rhFallbackPass_congr (args : Args) (fs : FS) {sys1 sys2 : List (String × String)}
    (hps : pySorted leByName sys1 = pySorted leByName sys2)
    (ints : List (String × Intf)) (files : FileMap) :
    rhFallbackPass args fs ints sys1 files = rhFallbackPass args fs ints sys2 files := by
  unfold rhFallbackPass
  rw [show (fun a b : String × String => pyStrLe a.2 b.2) = leByName from rfl, hps]

theorem write_redhat_sys_congr (args : Args) (fs : FS) (ints : List (String × Intf))
    {sys1 sys2 : List (String × String)}
    (hg : ∀ m, dictGet m sys1 = dictGet m sys2)
    (hm : ∀ m, dictMem m sys1 = dictMem m sys2)
    (hps : pySorted leByName sys1 = pySorted leByName sys2) :
    write_redhat_interfaces args fs ints sys1 = write_redhat_interfaces args fs ints sys2 := by
  unfold write_redhat_interfaces
  dsimp only []
  rw [rhFilterPass_congr hg hm ints, rhGroupPass_congr hg, rhFallbackPass_congr args fs hps]

theorem networkdGroupPass_congr {sys1 sys2 : List (String × String)}
    (hg : ∀ m, dictGet m sys1 = dictGet m sys2)
    (hm : ∀ m, dictMem m sys1 = dictMem m sys2) (ints : List (String × Intf)) :
    networkdGroupPass sys1 ints = networkdGroupPass sys2 ints := by
  unfold networkdGroupPass
  refine foldl_congr_mem _ _ _ _ ?_
  intro acc p hp
  simp only [hg, hm]

theorem networkdRenderGroups_congr (args : Args) {sys1 sys2 : List (String × String)}
    (hg : ∀ m, dictGet m sys1 = dictGet m sys2)
    (gen : List (List String × List Intf)) :
    networkdRenderGroups args sys1 gen = networkdRenderGroups args sys2 gen := by
  unfold networkdRenderGroups
  refine foldl_congr_mem _ _ _ _ ?_
  intro acc p hp
  simp only [hg]

theorem networkdFallbackPass_congr (args : Args) (fs : FS)
    {sys1 sys2 : List (String × String)}
    (hps : pySorted leByName sys1 = pySorted leByName sys2)
    (gen : List (List String × List Intf)) (files : NetFiles) :
    networkdFallbackPass args fs gen sys1 files = networkdFallbackPass args fs gen sys2 files := by
  unfold networkdFallbackPass
  rw [show (fun a b : String × String => pyStrLe a.2 b.2) = leByName from rfl, hps]

theorem write_networkd_sys_congr (args : Args) (fs : FS) (ints : List (String × Intf))
    {sys1 sys2 : List (String × String)}
    (hg : ∀ m, dictGet m sys1 = dictGet m sys2)
    (hm : ∀ m, dictMem m sys1 = dictMem m sys2)
    (hps : pySorted leByName sys1 = pySorted leByName sys2) :
    write_networkd_interfaces args fs ints sys1 = write_networkd_interfaces args fs ints sys2 := by
  unfold write_networkd_interfaces
  dsimp only []
  rw [networkdGroupPass_congr hg hm ints, networkdRenderGroups_congr args hg,
    networkdFallbackPass_congr args fs hps]

theorem gentooGroupPass_congr {sys1 sys2 : List (String × String)}
    (hg : ∀ m, dictGet m sys1 = dictGet m sys2)
    (hm : ∀ m, dictMem m sys1 = dictMem m sys2) (ints : List (String × Intf)) :
    gentooGroupPass sys1 ints = gentooGroupPass sys2 ints := by
  unfold gentooGroupPass
  refine foldl_congr_mem _ _ _ _ ?_
  intro acc p hp
  simp only [hg, hm]

theorem gentooRenderGroups_congr {sys1 sys2 : List (String × String)}
    (hg : ∀ m, dictGet m sys1 = dictGet m sys2)
    (gen : List (List String × List Intf)) :
    gentooRenderGroups sys1 gen = gentooRenderGroups sys2 gen := by
  unfold gentooRenderGroups
  refine foldl_congr_mem _ _ _ _ ?_
  intro acc p hp
  simp only [hg]

theorem write_gentoo_sys_congr (args : Args) (fs : FS) (ints : List (String × Intf))
    {sys1 sys2 : List (String × String)}
    (hg : ∀ m, dictGet m sys1 = dictGet m sys2)
    (hm : ∀ m, dictMem m sys1 = dictMem m sys2)
    (hps : pySorted leByName sys1 = pySorted leByName sys2) :
    write_gentoo_interfaces args fs ints sys1 = write_gentoo_interfaces args fs ints sys2 := by
  unfold write_gentoo_interfaces
  dsimp only []
  rw [gentooGroupPass_congr hg hm ints, gentooRenderGroups_congr hg,
    show (fun a b : String × String => pyStrLe a.2 b.2) = leByName from rfl, hps]

theorem debianIfaceName_congr {sys1 sys2 : List (String × String)}
    (hg : ∀ m, dictGet m sys1 = dictGet m sys2) (iname : String) (i : Intf) :
    debianIfaceName sys1 iname i = debianIfaceName sys2 iname i := by
  unfold debianIfaceName
  simp only [hg]

theorem _write_debian_bond_conf_congr (name : String) (i : Intf)
    {sys1 sys2 : List (String × String)}
    (hg : ∀ m, dictGet m sys1 = dictGet m sys2) :
    _write_debian_bond_conf name i sys1 = _write_debian_bond_conf name i sys2 := by
  unfold _write_debian_bond_conf
  simp only [hg]

theorem debianStep_congr (args : Args) (fs : FS) {sys1 sys2 : List (String × String)}
    (hg : ∀ m, dictGet m sys1 = dictGet m sys2)
    (hm : ∀ m, dictMem m sys1 = dictMem m sys2) (files : FileMap) (p : String × Intf) :
    debianStep args fs sys1 files p = debianStep args fs sys2 files p := by
  unfold debianStep
  simp only [hg, hm, debianIfaceName_congr hg, _write_debian_bond_conf_congr _ _ hg]

theorem write_debian_sys_congr (args : Args) (fs : FS) (ints : List (String × Intf))
    {sys1 sys2 : List (String × String)}
    (hg : ∀ m, dictGet m sys1 = dictGet m sys2)
    (hm : ∀ m, dictMem m sys1 = dictMem m sys2)
    (hps : pySorted leByName sys1 = pySorted leByName sys2) :
    write_debian_interfaces args fs ints sys1 = write_debian_interfaces args fs ints sys2 := by
  unfold write_debian_interfaces
  dsimp only []
  rw [foldl_congr_mem (debianStep args fs sys1) (debianStep args fs sys2) _ _
    (fun acc p _ => debianStep_congr args fs hg hm acc p)]
  unfold debianFallbackPass
  rw [show (fun a b : String × String => pyStrLe a.2 b.2) = leByName from rfl, hps]



theorem rhFilterPass_eq_filterMap (sys : List (String × String)) :
    ∀ l, rhFilterPass sys l = l.filterMap (rhFilterFn sys)
  | [] => rfl
  | (k, i) :: l => by
    simp only [rhFilterPass, List.filterMap_cons, rhFilterFn]
    by_cases h : (i.raw_macs.getD [getStr i.mac_address]).any (fun m => dictMem m sys) = true
    · simp only [h, not_true_eq_false, if_false, reduceIte]
      rw [rhFilterPass_eq_filterMap sys l]
    · simp only [Bool.not_eq_true] at h
      simp only [h, Bool.false_eq_true, not_false_eq_true, if_true, reduceIte]
      exact rhFilterPass_eq_filterMap sys l

theorem rhFilterFn_id {sys : List (String × String)} {p q : String × Intf}
    (h : rhFilterFn sys p = some q) : q.2.id = p.2.id := by
  unfold rhFilterFn at h
  dsimp only [] at h
  split at h
  · cases h
  · have := Option.some.inj h
    subst this
    by_cases hb : p.2.bond_links.isSome <;> simp [hb]

theorem map_filterMap_sublist {α β γ : Type} (f : α → Option β) (g : α → γ) (gb : β → γ)
    (hpres : ∀ p q, f p = some q → gb q = g p) :
    ∀ l : List α, List.Sublist ((l.filterMap f).map gb) (l.map g)
  | [] => List.Sublist.refl []
  | a :: l => by
    simp only [List.filterMap_cons, List.map_cons]
    cases hfa : f a with
    | none => exact (map_filterMap_sublist f g gb hpres l).cons (g a)
    | some b =>
      simp only [List.map_cons]
      rw [hpres a b hfa]
      exact (map_filterMap_sublist f g gb hpres l).cons₂ (g a)

theorem rhCoveredMac_perm {ints1 ints2 : List (String × Intf)}
    (h : List.Perm ints1 ints2) (m : String) :
    rhCoveredMac ints1 m = rhCoveredMac ints2 m := by
  unfold rhCoveredMac
  rw [any_perm (h.map (fun p => getStr p.2.mac_address)),
    any_perm (h.filter (fun p => p.2.vlan_id.isSome))]

theorem debianCoveredMac_perm {ints1 ints2 : List (String × Intf)}
    (h : List.Perm ints1 ints2) (m : String) :
    debianCoveredMac ints1 m = debianCoveredMac ints2 m := by
  unfold debianCoveredMac
  rw [any_perm (h.map (fun p => getStr p.2.mac_address)),
    any_perm (h.filter (fun p => p.2.vlan_id.isSome))]

theorem write_redhat_ints_perm (args : Args) (fs : FS) (sys : List (String × String))
    {ints1 ints2 : List (String × Intf)} (hi : List.Perm ints1 ints2)
    (hid : (ints1.map (fun p => p.2.id)).Nodup) :
    write_redhat_interfaces args fs ints1 sys = write_redhat_interfaces args fs ints2 sys := by
  unfold write_redhat_interfaces
  dsimp only []
  have hfperm : List.Perm (rhFilterPass sys ints1) (rhFilterPass sys ints2) := by
    rw [rhFilterPass_eq_filterMap, rhFilterPass_eq_filterMap]
    exact hi.filterMap _
  have hfid : ((rhFilterPass sys ints1).map (fun p => p.2.id)).Nodup := by
    rw [rhFilterPass_eq_filterMap]
    exact (map_filterMap_sublist (rhFilterFn sys) (fun p => p.2.id) (fun p => p.2.id)
      (fun p q h => rhFilterFn_id h) ints1).nodup hid
  have hgroup : rhGroupPass sys (rhFilterPass sys ints1) =
      rhGroupPass sys (rhFilterPass sys ints2) := by
    unfold rhGroupPass
    rw [show (fun a b : String × Intf => pyStrLe a.2.id b.2.id) = leById from rfl,
      pySorted_perm_eq leById leById_total leById_trans _ _ hfperm (leById_anti_of_nodup hfid)]
  have hfb : ∀ files, rhFallbackPass args fs (rhFilterPass sys ints1) sys files =
      rhFallbackPass args fs (rhFilterPass sys ints2) sys files := by
    intro files
    unfold rhFallbackPass
    by_cases hnd : args.no_dhcp_fallback
    · simp [hnd]
    · simp only [hnd, if_false]
      refine foldl_congr_mem _ _ _ _ ?_
      intro acc p hp
      rw [rhCoveredMac_perm hfperm]
  rw [hgroup, hfb]

theorem write_networkd_ints_perm (args : Args) (fs : FS) (sys : List (String × String))
    {ints1 ints2 : List (String × Intf)} (hi : List.Perm ints1 ints2)
    (hid : (ints1.map (fun p => p.2.id)).Nodup) :
    write_networkd_interfaces args fs ints1 sys = write_networkd_interfaces args fs ints2 sys := by
  unfold write_networkd_interfaces
  dsimp only []
  have hgen : networkdGroupPass sys ints1 = networkdGroupPass sys ints2 := by
    unfold networkdGroupPass
    rw [show (fun a b : String × Intf => pyStrLe a.2.id b.2.id) = leById from rfl,
      pySorted_perm_eq leById leById_total leById_trans _ _ hi (leById_anti_of_nodup hid)]
  rw [hgen]

theorem write_gentoo_ints_perm (args : Args) (fs : FS) (sys : List (String × String))
    {ints1 ints2 : List (String × Intf)} (hi : List.Perm ints1 ints2)
    (hid : (ints1.map (fun p => p.2.id)).Nodup) :
    write_gentoo_interfaces args fs ints1 sys = write_gentoo_interfaces args fs ints2 sys := by
  unfold write_gentoo_interfaces
  dsimp only []
  have hgen : gentooGroupPass sys ints1 = gentooGroupPass sys ints2 := by
    unfold gentooGroupPass
    rw [show (fun a b : String × Intf => pyStrLe a.2.id b.2.id) = leById from rfl,
      pySorted_perm_eq leById leById_total leById_trans _ _ hi (leById_anti_of_nodup hid)]
  rw [hgen]

theorem write_debian_ints_perm (args : Args) (fs : FS) (sys : List (String × String))
    {ints1 ints2 : List (String × Intf)} (hi : List.Perm ints1 ints2)
    (hid : (ints1.map (fun p => p.2.id)).Nodup) :
    write_debian_interfaces args fs ints1 sys = write_debian_interfaces args fs ints2 sys := by
  unfold write_debian_interfaces
  dsimp only []
  rw [show (fun a b : String × Intf => pyStrLe a.2.id b.2.id) = leById from rfl,
    pySorted_perm_eq leById leById_total leById_trans _ _ hi (leById_anti_of_nodup hid)]
  unfold debianFallbackPass
  by_cases hnd : args.no_dhcp_fallback
  · simp [hnd]
  · simp only [hnd, if_false]
    refine foldl_congr_mem _ _ _ _ ?_
    intro acc p hp
    rw [debianCoveredMac_perm hi]

/-! ## Claims -/

/-- C1: the claim says that before synthesizing a DHCP fallback entry the
guard consults the dialect's own file-existence predicate — on the RedHat
legacy dialect the `ifcfg-<name>` path — and skips when it reports
"exists".  The code violates this: cmd.py:572 tests the function object
`is_keyfile_format` (truthy) instead of calling it, so on the legacy
dialect the guard consults the NetworkManager keyfile path instead.  At
the failing input (legacy `redhat` distro, empty topology, one live
interface whose `ifcfg-eth0` file exists), `_exists_rh_interface` itself
reports "exists", yet the renderer regenerates `ifcfg-eth0`; adding the
`.nmconnection` file — the path the buggy guard actually consults — is
what makes the run skip. -/
theorem redhat_fallback_guard_ignores_ifcfg :
    _exists_rh_interface (fun p => p == "/etc/sysconfig/network-scripts/ifcfg-eth0") "eth0"
        "redhat" = true ∧
    write_redhat_interfaces { distro := "redhat" }
        (fun p => p == "/etc/sysconfig/network-scripts/ifcfg-eth0")
        [] [("aa:bb:cc:dd:ee:ff", "eth0")] =
      [("/etc/sysconfig/network-scripts/ifcfg-eth0",
        "# Automatically generated, do not edit\nDEVICE=eth0\nBOOTPROTO=dhcp\nHWADDR=aa:bb:cc:dd:ee:ff\nONBOOT=yes\nNM_CONTROLLED=no\nTYPE=Ethernet\n")] ∧
    write_redhat_interfaces { distro := "redhat" }
        (fun p => p == "/etc/sysconfig/network-scripts/ifcfg-eth0" ||
          p == "/etc/NetworkManager/system-connections/eth0.nmconnection")
        [] [("aa:bb:cc:dd:ee:ff", "eth0")] = [] := by
  refine ⟨rfl, ?_, ?_⟩ <;> rfl

/-- C5: the claim says a `.netdev` companion file is emitted exactly for
VLAN and bond interfaces and never for a plain physical, DHCP, or fallback
interface.  cmd.py:709 reads `if 'bond_mode' or 'vlan_id' in interface:`
— the non-empty string literal `'bond_mode'` is truthy, so the branch is
taken for every interface: at the failing input (one fallback DHCP
interface `eth0`, empty topology) the FileMap contains
`/etc/systemd/network/eth0.netdev`. -/
theorem networkd_netdev_for_plain_interface :
    write_networkd_interfaces { distro := "networkd" } (fun _ => false)
        [] [("aa:bb:cc:dd:ee:ff", "eth0")] =
      [("/etc/systemd/network/eth0.network",
        "# Automatically generated, do not edit\n[Match]\nMACAddress=aa:bb:cc:dd:ee:ff\nName=eth0\n\n[Network]\nDHCP=ipv4\nIPv6AcceptRA=no\n\n"),
       ("/etc/systemd/network/eth0.netdev",
        "# Automatically generated, do not edit\n[NetDev]\nMACAddress=aa:bb:cc:dd:ee:ff\nName=eth0\n\n")] ∧
    dictGet "/etc/systemd/network/eth0.netdev"
        (write_networkd_interfaces { distro := "networkd" } (fun _ => false)
          [] [("aa:bb:cc:dd:ee:ff", "eth0")]) ≠ none := by
  exact ⟨rfl, by decide⟩

/-- C4 (counterexample): the claim says that with DHCP fallback disabled
and an empty topology *every* dialect returns an empty FileMap; the Debian
renderer refutes it — it unconditionally emits the loopback
`/etc/network/interfaces` entry (cmd.py:1093-1094). -/
theorem debian_empty_topology_filemap_not_empty :
    write_debian_interfaces { distro := "ubuntu", no_dhcp_fallback := true } (fun _ => false)
        [] [("aa:bb:cc:dd:ee:01", "eth0"), ("aa:bb:cc:dd:ee:02", "eth1")] =
      [("/etc/network/interfaces",
        "auto lo\niface lo inet loopback\nsource /etc/network/interfaces.d/*.cfg\n")] ∧
    write_debian_interfaces { distro := "ubuntu", no_dhcp_fallback := true } (fun _ => false)
        [] [("aa:bb:cc:dd:ee:01", "eth0"), ("aa:bb:cc:dd:ee:02", "eth1")] ≠ [] := by
  refine ⟨rfl, by decide⟩

/-- C4 (amended): an empty document (`links`/`networks` absent) parses to
an empty topology.  With fallback disabled, the RedHat, Gentoo and
networkd renderers return an empty FileMap, while Debian returns exactly
the unconditional loopback `/etc/network/interfaces` entry.  With fallback
enabled and two live permanent-MAC interfaces, RedHat and Gentoo produce
exactly two DHCP stanzas (one file per interface); Debian produces the two
stanzas plus the loopback file; networkd produces the two DHCP `.network`
files plus a spurious `.netdev` companion per interface (the cmd.py:709
truthy-literal condition). -/
theorem empty_topology_dhcp_fallback_outputs :
    get_config_drive_interfaces {} = .ok [] ∧
    write_redhat_interfaces { distro := "redhat", no_dhcp_fallback := true } (fun _ => false)
        [] [("aa:bb:cc:dd:ee:01", "eth0"), ("aa:bb:cc:dd:ee:02", "eth1")] = [] ∧
    write_gentoo_interfaces { distro := "gentoo", no_dhcp_fallback := true } (fun _ => false)
        [] [("aa:bb:cc:dd:ee:01", "eth0"), ("aa:bb:cc:dd:ee:02", "eth1")] = [] ∧
    write_networkd_interfaces { distro := "networkd", no_dhcp_fallback := true } (fun _ => false)
        [] [("aa:bb:cc:dd:ee:01", "eth0"), ("aa:bb:cc:dd:ee:02", "eth1")] = [] ∧
    write_debian_interfaces { distro := "ubuntu", no_dhcp_fallback := true } (fun _ => false)
        [] [("aa:bb:cc:dd:ee:01", "eth0"), ("aa:bb:cc:dd:ee:02", "eth1")] =
      [("/etc/network/interfaces",
        "auto lo\niface lo inet loopback\nsource /etc/network/interfaces.d/*.cfg\n")] ∧
    write_redhat_interfaces { distro := "redhat" } (fun _ => false)
        [] [("aa:bb:cc:dd:ee:01", "eth0"), ("aa:bb:cc:dd:ee:02", "eth1")] =
      [("/etc/sysconfig/network-scripts/ifcfg-eth0",
        "# Automatically generated, do not edit\nDEVICE=eth0\nBOOTPROTO=dhcp\nHWADDR=aa:bb:cc:dd:ee:01\nONBOOT=yes\nNM_CONTROLLED=no\nTYPE=Ethernet\n"),
       ("/etc/sysconfig/network-scripts/ifcfg-eth1",
        "# Automatically generated, do not edit\nDEVICE=eth1\nBOOTPROTO=dhcp\nHWADDR=aa:bb:cc:dd:ee:02\nONBOOT=yes\nNM_CONTROLLED=no\nTYPE=Ethernet\n")] ∧
    write_gentoo_interfaces { distro := "gentoo" } (fun _ => false)
        [] [("aa:bb:cc:dd:ee:01", "eth0"), ("aa:bb:cc:dd:ee:02", "eth1")] =
      [("/etc/conf.d/net.eth0",
        "# Automatically generated, do not edit\nconfig_eth0=\"dhcp\"\nmac_eth0=\"aa:bb:cc:dd:ee:01\"\n"),
       ("/etc/conf.d/net.eth1",
        "# Automatically generated, do not edit\nconfig_eth1=\"dhcp\"\nmac_eth1=\"aa:bb:cc:dd:ee:02\"\n")] ∧
    write_debian_interfaces { distro := "ubuntu" } (fun _ => false)
        [] [("aa:bb:cc:dd:ee:01", "eth0"), ("aa:bb:cc:dd:ee:02", "eth1")] =
      [("/etc/network/interfaces",
        "auto lo\niface lo inet loopback\nsource /etc/network/interfaces.d/*.cfg\n"),
       ("/etc/network/interfaces.d/eth0.cfg", "auto eth0\niface eth0 inet dhcp\n"),
       ("/etc/network/interfaces.d/eth1.cfg", "auto eth1\niface eth1 inet dhcp\n")] ∧
    write_networkd_interfaces { distro := "networkd" } (fun _ => false)
        [] [("aa:bb:cc:dd:ee:01", "eth0"), ("aa:bb:cc:dd:ee:02", "eth1")] =
      [("/etc/systemd/network/eth0.network",
        "# Automatically generated, do not edit\n[Match]\nMACAddress=aa:bb:cc:dd:ee:01\nName=eth0\n\n[Network]\nDHCP=ipv4\nIPv6AcceptRA=no\n\n"),
       ("/etc/systemd/network/eth0.netdev",
        "# Automatically generated, do not edit\n[NetDev]\nMACAddress=aa:bb:cc:dd:ee:01\nName=eth0\n\n"),
       ("/etc/systemd/network/eth1.network",
        "# Automatically generated, do not edit\n[Match]\nMACAddress=aa:bb:cc:dd:ee:02\nName=eth1\n\n[Network]\nDHCP=ipv4\nIPv6AcceptRA=no\n\n"),
       ("/etc/systemd/network/eth1.netdev",
        "# Automatically generated, do not edit\n[NetDev]\nMACAddress=aa:bb:cc:dd:ee:02\nName=eth1\n\n")] := by
  refine ⟨rfl, rfl, rfl, rfl, rfl, rfl, rfl, rfl, rfl⟩

/-- C6 (counterexample): the claim says every dialect renders a
`0.0.0.0`/`0.0.0.0` route as a default-gateway directive and never as a
generic numbered route line.  The keyfile dialect refutes it: at a
concrete static interface with one default route, the rendered
`.nmconnection` contains the generic numbered route line
`route1=0.0.0.0/0,10.0.0.1` and no gateway directive. -/
theorem keyfile_default_route_rendered_as_numbered_route :
    write_redhat_interfaces { distro := "centos", keyfile := true } (fun _ => false)
        [("network0",
          { id := "network0", ltype := "ipv4", mac_address := some "aa:bb:cc:dd:ee:ff",
            ip_address := some "10.0.0.5", netmask := some "255.255.255.0",
            routes := some [{ network := some "0.0.0.0", netmask := some "0.0.0.0",
                                gateway := some "10.0.0.1" }] })]
        [("aa:bb:cc:dd:ee:ff", "eth0")] =
      [("/etc/NetworkManager/system-connections/eth0.nmconnection",
        "# Automatically generated, do not edit\n[connection]\nid=eth0\nuuid=\ntype=802-3-ethernet\n\n[ipv4]\nmethod=manual\naddress1=10.0.0.5/24\nroute1=0.0.0.0/0,10.0.0.1\n\n[802-3-ethernet]\nmac_address=aa:bb:cc:dd:ee:ff\n")] ∧
    pyIn "route1=0.0.0.0/0,10.0.0.1\n"
      "# Automatically generated, do not edit\n[connection]\nid=eth0\nuuid=\ntype=802-3-ethernet\n\n[ipv4]\nmethod=manual\naddress1=10.0.0.5/24\nroute1=0.0.0.0/0,10.0.0.1\n\n[802-3-ethernet]\nmac_address=aa:bb:cc:dd:ee:ff\n" = true ∧
    pyIn "DEFROUTE"
      "# Automatically generated, do not edit\n[connection]\nid=eth0\nuuid=\ntype=802-3-ethernet\n\n[ipv4]\nmethod=manual\naddress1=10.0.0.5/24\nroute1=0.0.0.0/0,10.0.0.1\n\n[802-3-ethernet]\nmac_address=aa:bb:cc:dd:ee:ff\n" = false ∧
    pyIn "GATEWAY"
      "# Automatically generated, do not edit\n[connection]\nid=eth0\nuuid=\ntype=802-3-ethernet\n\n[ipv4]\nmethod=manual\naddress1=10.0.0.5/24\nroute1=0.0.0.0/0,10.0.0.1\n\n[802-3-ethernet]\nmac_address=aa:bb:cc:dd:ee:ff\n" = false := by
  refine ⟨rfl, by decide, by decide, by decide⟩

/-- C6 (amended): a `0.0.0.0`/`0.0.0.0` route (`::`/`::` for IPv6) renders
as a default-gateway directive on the legacy RedHat ifcfg dialect
(`DEFROUTE`/`GATEWAY`, contributing no route-file entry), on SUSE (the
`default <gw>` route-file notation), on Debian (`gateway` keyword, both
families) and on Gentoo (`default via <gw>`); the whole-file legacy and
SUSE renders of the spec's scenario confirm the directives end-to-end.  On
the keyfile dialect (IPv4 and IPv6) and on systemd-networkd, however, a
default route is rendered as a generic numbered/static route entry
(`route<n>=0.0.0.0/0,…`, `route<n>=::/0,…`, `[Route]` with
`Destination=0.0.0.0/0`) exactly like any other route. -/
theorem default_route_rendering_by_dialect :
    (∀ (gw : String) (rs : List RouteRec),
      rhV4RouteSplit { distro := "redhat" }
          ({ network := some "0.0.0.0", netmask := some "0.0.0.0", gateway := some gw } :: rs) =
        ("DEFROUTE=yes\nGATEWAY=" ++ gw ++ "\n" ++ (rhV4RouteSplit { distro := "redhat" } rs).1,
         (rhV4RouteSplit { distro := "redhat" } rs).2)) ∧
    (∀ (gw : String) (rs : List RouteRec),
      rhV4RouteSplit { distro := "opensuse" }
          ({ network := some "0.0.0.0", netmask := some "0.0.0.0", gateway := some gw } :: rs) =
        ((rhV4RouteSplit { distro := "opensuse" } rs).1,
         ⟨"default", "", gw⟩ :: (rhV4RouteSplit { distro := "opensuse" } rs).2)) ∧
    (∀ (gw : String) (rs : List RouteRec),
      rhV6RouteSplit ({ network := some "::", netmask := some "::", gateway := some gw } :: rs) =
        ("IPV6_DEFAULTGW=" ++ gw ++ "\n" ++ (rhV6RouteSplit rs).1, (rhV6RouteSplit rs).2)) ∧
    (∀ (n lt gw : String) (rs : List RouteRec),
      debianRouteLines n lt
          ({ network := some "0.0.0.0", netmask := some "0.0.0.0", gateway := some gw } :: rs) =
        "    gateway " ++ gw ++ "\n" ++ debianRouteLines n lt rs) ∧
    (∀ (n lt gw : String) (rs : List RouteRec),
      debianRouteLines n lt
          ({ network := some "::", netmask := some "::", gateway := some gw } :: rs) =
        "    gateway " ++ gw ++ "\n" ++ debianRouteLines n lt rs) ∧
    (∀ (gw : String) (rs : List RouteRec),
      gentooRoutes
          ({ network := some "0.0.0.0", netmask := some "0.0.0.0", gateway := some gw } :: rs) =
        ("default via " ++ gw) :: gentooRoutes rs) ∧
    (∀ (gw : String) (rs : List RouteRec) (n : Nat),
      keyfileV4Routes n
          ({ network := some "0.0.0.0", netmask := some "0.0.0.0", gateway := some gw } :: rs) =
        ("route" ++ toString n ++ "=" ++ "0.0.0.0/0" ++ "," ++ gw) ::
          keyfileV4Routes (n + 1) rs) ∧
    (∀ (gw : String) (rs : List RouteRec) (n : Nat),
      keyfileV6Routes n
          ({ network := some "::", netmask := some "::", gateway := some gw } :: rs) =
        ("route" ++ toString n ++ "=" ++ "::/0" ++ "," ++ gw) :: keyfileV6Routes (n + 1) rs) ∧
    write_redhat_interfaces { distro := "redhat" } (fun _ => false)
        [("network0",
          { id := "network0", ltype := "ipv4", mac_address := some "aa:bb:cc:dd:ee:ff",
            ip_address := some "10.0.0.5", netmask := some "255.255.255.0",
            routes := some [{ network := some "0.0.0.0", netmask := some "0.0.0.0",
                                gateway := some "10.0.0.1" }] })]
        [("aa:bb:cc:dd:ee:ff", "eth0")] =
      [("/etc/sysconfig/network-scripts/ifcfg-eth0",
        "# Automatically generated, do not edit\nDEVICE=eth0\nBOOTPROTO=static\nHWADDR=aa:bb:cc:dd:ee:ff\nONBOOT=yes\nNM_CONTROLLED=no\nTYPE=Ethernet\nIPADDR=10.0.0.5\nNETMASK=255.255.255.0\nDEFROUTE=yes\nGATEWAY=10.0.0.1\n")] ∧
    write_redhat_interfaces { distro := "opensuse" } (fun _ => false)
        [("network0",
          { id := "network0", ltype := "ipv4", mac_address := some "aa:bb:cc:dd:ee:ff",
            ip_address := some "10.0.0.5", netmask := some "255.255.255.0",
            routes := some [{ network := some "0.0.0.0", netmask := some "0.0.0.0",
                                gateway := some "10.0.0.1" }] })]
        [("aa:bb:cc:dd:ee:ff", "eth0")] =
      [("/etc/sysconfig/network/ifroute-eth0", "default 10.0.0.1\n"),
       ("/etc/sysconfig/network/ifcfg-eth0",
        "# Automatically generated, do not edit\nBOOTPROTO=static\nLLADDR=aa:bb:cc:dd:ee:ff\nSTARTMODE=auto\nIPADDR=10.0.0.5\nNETMASK=255.255.255.0\n")] ∧
    write_networkd_interfaces { distro := "networkd", no_dhcp_fallback := true } (fun _ => false)
        [("network0",
          { id := "network0", ltype := "ipv4", mac_address := some "aa:bb:cc:dd:ee:ff",
            ip_address := some "10.0.0.5", netmask := some "255.255.255.0",
            routes := some [{ network := some "0.0.0.0", netmask := some "0.0.0.0",
                                gateway := some "10.0.0.1" }] })]
        [("aa:bb:cc:dd:ee:ff", "eth0")] =
      [("/etc/systemd/network/eth0.network",
        "# Automatically generated, do not edit\n[Match]\nMACAddress=aa:bb:cc:dd:ee:ff\nName=eth0\n\n[Network]\nIPv6AcceptRA=no\n\n[Address]\nAddress=10.0.0.5/24\n\n[Route]\nDestination=0.0.0.0/0\nGateway=10.0.0.1\n\n"),
       ("/etc/systemd/network/eth0.netdev",
        "# Automatically generated, do not edit\n[NetDev]\nMACAddress=aa:bb:cc:dd:ee:ff\nName=eth0\n\n")] := by
  refine ⟨fun gw rs => rfl, fun gw rs => rfl, ?_, fun n lt gw rs => rfl, fun n lt gw rs => rfl,
    fun gw rs => rfl, ?_, ?_, rfl, rfl, rfl⟩
  · intro gw rs
    have h0 : ipv6_netmask_length "::" = 0 := rfl
    simp [rhV6RouteSplit, getStr, h0, strAppendEmpty, strAppendAssoc]
  · intro gw rs n
    have h : with_prefixlen_v4 "0.0.0.0" "0.0.0.0" = "0.0.0.0/0" := rfl
    simp [keyfileV4Routes, getStr, h]
  · intro gw rs n
    have h0 : ipv6_netmask_length "::" = 0 := rfl
    have h1 : toString (0 : Nat) = "0" := rfl
    simp [keyfileV6Routes, getStr, h0, h1, strAppendAssoc]

/-- C7: the claim says a VLAN whose `vlan_link` matches no known link is
dropped with a warning, its MAC never contributes, and the run does not
fail.  That holds only while no network is bound to the orphan VLAN (first
conjunct: the orphan and its `vlan_mac_address` are absent from the
parser's output).  When a network IS bound to it (second/third conjuncts),
cmd.py:1306 `continue`s without removing the link from `vlans`, so the
networks join (cmd.py:1330-1341) resurrects it: the returned entry has
neither `mac_address` nor `raw_macs`, and every renderer's first dict
access on it — `interface.get('raw_macs', [interface['mac_address']])`
(cmd.py:468/799/1015/1101) — raises KeyError, aborting the run. -/
theorem orphan_vlan_resurrected_by_networks_join :
    get_config_drive_interfaces
        { links := some [
            { id := "p1", ltype := "phy", ethernet_mac_address := some "aa:bb:cc:dd:ee:01" },
            { id := "v", ltype := "vlan", vlan_link := some "nope", vlan_id := some 5,
              vlan_mac_address := some "aa:bb:cc:dd:ee:99" }],
          networks := some [
            { nid := "n1", link := "p1", ntype := "ipv4", ip_address := some "10.0.0.5",
              netmask := some "255.255.255.0" }] } =
      .ok [("n1",
        { id := "n1", ltype := "ipv4", mac_address := some "aa:bb:cc:dd:ee:01",
          ip_address := some "10.0.0.5", netmask := some "255.255.255.0",
          link := some "p1" })] ∧
    (get_config_drive_interfaces
        { links := some [
            { id := "p1", ltype := "phy", ethernet_mac_address := some "aa:bb:cc:dd:ee:01" },
            { id := "v", ltype := "vlan", vlan_link := some "nope", vlan_id := some 5,
              vlan_mac_address := some "aa:bb:cc:dd:ee:99" }],
          networks := some [
            { nid := "n1", link := "v", ntype := "ipv4", ip_address := some "10.0.0.5",
              netmask := some "255.255.255.0" }] }).map
        (fun m => (dictGet "n1" m).map (fun i => (i.mac_address, i.raw_macs))) =
      .ok (some (none, none)) ∧
    (get_config_drive_interfaces
        { links := some [
            { id := "p1", ltype := "phy", ethernet_mac_address := some "aa:bb:cc:dd:ee:01" },
            { id := "v", ltype := "vlan", vlan_link := some "nope", vlan_id := some 5,
              vlan_mac_address := some "aa:bb:cc:dd:ee:99" }],
          networks := some [
            { nid := "n1", link := "v", ntype := "ipv4", ip_address := some "10.0.0.5",
              netmask := some "255.255.255.0" }] }).map
        (fun m => (dictGet "n1" m).map rendererRawMacs) =
      .ok (some (.error "KeyError: mac_address")) := by
  refine ⟨rfl, rfl, rfl⟩

/-- C8: a VLAN link whose `vlan_link` is a bond resolves its `raw_macs` to
the ordered list of the lower-cased macs of the bond's `bond_links`
children — one entry per child, in declaration order (cmd.py:1297-1302) —
and its `mac_address` to the popped `vlan_mac_address` (defaulting to the
bond's mac); the bond's own mac enters `raw_macs` only when it coincides
with a child's. -/
theorem vlan_on_bond_resolves_child_macs (m1 m2 mb ip mask : String) :
    (get_config_drive_interfaces
        { links := some [
            { id := "p1", ltype := "phy", ethernet_mac_address := some m1 },
            { id := "p2", ltype := "phy", ethernet_mac_address := some m2 },
            { id := "b", ltype := "bond", ethernet_mac_address := some mb,
              bond_mode := some "802.3ad", bond_links := some ["p1", "p2"] },
            { id := "v", ltype := "vlan", vlan_link := some "b", vlan_id := some 100 }],
          networks := some [
            { nid := "n1", link := "v", ntype := "ipv4", ip_address := some ip,
              netmask := some mask }] }).map
        (fun m => (dictGet "n1" m).map (fun i => (i.raw_macs, i.mac_address))) =
      .ok (some (some [pyLower m1, pyLower m2], some (pyLower mb))) ∧
    (pyLower mb ∈ [pyLower m1, pyLower m2] ↔
      pyLower mb = pyLower m1 ∨ pyLower mb = pyLower m2) := by
  exact ⟨rfl, by simp⟩

/-- C9: in single-interface mode the scanner returns at most the one
mac→name entry for the named interface — exactly the stripped
`address`/`addr_assign_type` observations, returned immediately after the
permanent-address check — and its action trace is empty: no `ip link set …
up` is ever issued, for any filesystem state.  In probe-all mode, by
contrast, a down interface does get a `set link up` action (final
conjunct, a concrete probe-all run where `eth1` starts down, is brought
up, and joins the inventory after polling). -/
theorem single_interface_mode_returns_immediately_without_link_up (args : Args) (fs : SysFS)
    (i : String) :
    get_sys_interfaces (some i) args fs =
      (if fs.isVlan i then ([], [])
       else if fs.isBridge i then ([], [])
       else if pyStrip (fs.addr_assign_type i) ≠ PERMANENT_ADDR_TYPE then ([], [])
       else ([(pyStrip (fs.address i), i)], [])) ∧
    get_sys_interfaces none { distro := "redhat" }
        { listdir := ["eth0", "eth1", "lo", "bond0"], isVlan := fun _ => false,
          isBridge := fun _ => false, addr_assign_type := fun _ => "0\n",
          address := fun j => if j = "eth0" then "aa:bb:cc:dd:ee:01\n" else "aa:bb:cc:dd:ee:02\n",
          carrier := fun t j => j = "eth0" ∨ (j = "eth1" ∧ t ≥ 3) } =
      ([("aa:bb:cc:dd:ee:01", "eth0"), ("aa:bb:cc:dd:ee:02", "eth1")],
       [.setLinkUp "eth1"]) := by
  refine ⟨?_, rfl⟩
  by_cases h1 : fs.isVlan i <;> by_cases h2 : fs.isBridge i <;>
    by_cases h3 : pyStrip (fs.addr_assign_type i) = PERMANENT_ADDR_TYPE <;>
    simp [get_sys_interfaces, scanLoop, pollLoop, pollOnce, pySorted, dictSet, h1, h2, h3]

/-- C10: every `mac_address` value and every `raw_macs` element in the
mapping returned by the topology parser is a fixed point of `lower()`
(conjunct 1); an uppercase metadata MAC still enters the mapping — as its
lower-cased form (conjunct 2, symbolic `M`); the scanner's inventory keys
are the stripped-but-not-lowercased `address` file contents, used verbatim
(conjunct 3); consequently a system MAC that is not already lower-case can
never equal a parsed `mac_address` nor occur in a parsed `raw_macs` list
(conjunct 4). -/
theorem parser_macs_lowercased_sys_macs_verbatim :
    (∀ (net : NetDoc) (m : List (String × Intf)),
      get_config_drive_interfaces net = .ok m → ∀ p ∈ m, LoweredMacs p.2) ∧
    (∀ (M ip mask : String),
      (get_config_drive_interfaces
          { links := some [
              { id := "p1", ltype := "phy", ethernet_mac_address := some M }],
            networks := some [
              { nid := "n1", link := "p1", ntype := "ipv4", ip_address := some ip,
                netmask := some mask }] }).map
          (fun m => (dictGet "n1" m).map (fun i => i.mac_address)) =
        .ok (some (some (pyLower M)))) ∧
    (∀ (mode : Option String) (args : Args) (fs : SysFS),
      ∀ p ∈ (get_sys_interfaces mode args fs).1, p.1 = pyStrip (fs.address p.2)) ∧
    (∀ sysmac : String, pyLower sysmac ≠ sysmac →
      ∀ (net : NetDoc) (m : List (String × Intf)),
        get_config_drive_interfaces net = .ok m →
        ∀ p ∈ m, p.2.mac_address ≠ some sysmac ∧
          ∀ l, p.2.raw_macs = some l → sysmac ∉ l) := by
  refine ⟨parse_lowered, fun M ip mask => rfl, get_sys_keys_verbatim, ?_⟩
  intro sysmac hup net m hm p hp
  have hlow := parse_lowered net m hm p hp
  refine ⟨fun hc => hup (hlow.1 sysmac hc), fun l hl hin => hup (hlow.2 l hl sysmac hin)⟩

theorem parser_macs_lowercased_sys_macs_verbatim_witness :
    ({ id := "n1", ltype := "ipv4", mac_address := some "aa:bb:cc:dd:ee:ff",
       ip_address := some "192.0.2.2", netmask := some "255.255.255.0",
       link := some "p1" } : Intf).mac_address ≠ some "AA:BB:CC:DD:EE:FF" ∧
    ("aa:bb:cc:dd:ee:01", "eth0").1 =
      pyStrip (({ listdir := ["eth0"], isVlan := fun j => false,
                  isBridge := fun j => false, addr_assign_type := fun j => "0\n",
                  address := fun j => "aa:bb:cc:dd:ee:01\n",
                  carrier := fun t j => true } : SysFS).address
        ("aa:bb:cc:dd:ee:01", "eth0").2) :=
  ⟨(parser_macs_lowercased_sys_macs_verbatim.2.2.2 "AA:BB:CC:DD:EE:FF" (by decide)
      { links := some [
          { id := "p1", ltype := "phy",
            ethernet_mac_address := some "AA:BB:CC:DD:EE:FF" }],
        networks := some [
          { nid := "n1", link := "p1", ntype := "ipv4",
            ip_address := some "192.0.2.2", netmask := some "255.255.255.0" }] }
      [("n1", { id := "n1", ltype := "ipv4", mac_address := some "aa:bb:cc:dd:ee:ff",
                ip_address := some "192.0.2.2", netmask := some "255.255.255.0",
                link := some "p1" })] rfl
      ("n1", { id := "n1", ltype := "ipv4", mac_address := some "aa:bb:cc:dd:ee:ff",
               ip_address := some "192.0.2.2", netmask := some "255.255.255.0",
               link := some "p1" }) (by decide)).1,
   parser_macs_lowercased_sys_macs_verbatim.2.2.1 none { distro := "redhat" }
      { listdir := ["eth0"], isVlan := fun j => false,
        isBridge := fun j => false, addr_assign_type := fun j => "0\n",
        address := fun j => "aa:bb:cc:dd:ee:01\n",
        carrier := fun t j => true }
      ("aa:bb:cc:dd:ee:01", "eth0") (by decide)⟩

/-- C2 (amended): removing an interface none of whose `raw_macs` (or its
singleton `mac_address` when `raw_macs` is absent) occurs in the host
inventory leaves the RedHat, networkd and Gentoo FileMaps unchanged
(cmd.py:468-470/798-801/1014-1017 skip it and nothing downstream sees it).
On Debian the same holds only under the extra proviso that the dropped
interface's `mac_address` and `link_mac` are not inventory macs either:
the DHCP-fallback coverage check (cmd.py:1212-1215) reads them from the
UNFILTERED dict, so an unmatched interface can still suppress a fallback
stanza (see the counterexample). -/
theorem unmatched_interface_contributes_nothing (args : Args) (fs : FS)
    (sys : List (String × String)) (l1 l2 : List (String × Intf)) (k : String) (x : Intf)
    (hun : (x.raw_macs.getD [getStr x.mac_address]).any (fun m => dictMem m sys) = false) :
    write_redhat_interfaces args fs (l1 ++ (k, x) :: l2) sys =
      write_redhat_interfaces args fs (l1 ++ l2) sys ∧
    write_networkd_interfaces args fs (l1 ++ (k, x) :: l2) sys =
      write_networkd_interfaces args fs (l1 ++ l2) sys ∧
    write_gentoo_interfaces args fs (l1 ++ (k, x) :: l2) sys =
      write_gentoo_interfaces args fs (l1 ++ l2) sys ∧
    (dictMem (getStr x.mac_address) sys = false →
      (∀ lm, x.link_mac = some lm → dictMem lm sys = false) →
      write_debian_interfaces args fs (l1 ++ (k, x) :: l2) sys =
        write_debian_interfaces args fs (l1 ++ l2) sys) :=
  ⟨write_redhat_mid args fs sys k x l1 l2 hun,
   write_networkd_mid args fs sys k x l1 l2 hun,
   write_gentoo_mid args fs sys k x l1 l2 hun,
   fun hxmac hxlink => write_debian_mid args fs sys k x l1 l2 hun hxmac hxlink⟩

theorem unmatched_interface_contributes_nothing_witness :
    write_redhat_interfaces { distro := "redhat" } (fun p => false)
        [("v", { id := "v", ltype := "ipv4", raw_macs := some ["aa:bb:cc:dd:ee:02"],
                 mac_address := some "aa:bb:cc:dd:ee:03" }),
         ("n1", { id := "n1", ltype := "ipv4_dhcp", mac_address := some "aa:bb:cc:dd:ee:01" })]
        [("aa:bb:cc:dd:ee:01", "eth0")] =
      write_redhat_interfaces { distro := "redhat" } (fun p => false)
        [("n1", { id := "n1", ltype := "ipv4_dhcp", mac_address := some "aa:bb:cc:dd:ee:01" })]
        [("aa:bb:cc:dd:ee:01", "eth0")] ∧
    write_networkd_interfaces { distro := "redhat" } (fun p => false)
        [("v", { id := "v", ltype := "ipv4", raw_macs := some ["aa:bb:cc:dd:ee:02"],
                 mac_address := some "aa:bb:cc:dd:ee:03" }),
         ("n1", { id := "n1", ltype := "ipv4_dhcp", mac_address := some "aa:bb:cc:dd:ee:01" })]
        [("aa:bb:cc:dd:ee:01", "eth0")] =
      write_networkd_interfaces { distro := "redhat" } (fun p => false)
        [("n1", { id := "n1", ltype := "ipv4_dhcp", mac_address := some "aa:bb:cc:dd:ee:01" })]
        [("aa:bb:cc:dd:ee:01", "eth0")] ∧
    write_gentoo_interfaces { distro := "redhat" } (fun p => false)
        [("v", { id := "v", ltype := "ipv4", raw_macs := some ["aa:bb:cc:dd:ee:02"],
                 mac_address := some "aa:bb:cc:dd:ee:03" }),
         ("n1", { id := "n1", ltype := "ipv4_dhcp", mac_address := some "aa:bb:cc:dd:ee:01" })]
        [("aa:bb:cc:dd:ee:01", "eth0")] =
      write_gentoo_interfaces { distro := "redhat" } (fun p => false)
        [("n1", { id := "n1", ltype := "ipv4_dhcp", mac_address := some "aa:bb:cc:dd:ee:01" })]
        [("aa:bb:cc:dd:ee:01", "eth0")] ∧
    write_debian_interfaces { distro := "redhat" } (fun p => false)
        [("v", { id := "v", ltype := "ipv4", raw_macs := some ["aa:bb:cc:dd:ee:02"],
                 mac_address := some "aa:bb:cc:dd:ee:03" }),
         ("n1", { id := "n1", ltype := "ipv4_dhcp", mac_address := some "aa:bb:cc:dd:ee:01" })]
        [("aa:bb:cc:dd:ee:01", "eth0")] =
      write_debian_interfaces { distro := "redhat" } (fun p => false)
        [("n1", { id := "n1", ltype := "ipv4_dhcp", mac_address := some "aa:bb:cc:dd:ee:01" })]
        [("aa:bb:cc:dd:ee:01", "eth0")] :=
  have h := unmatched_interface_contributes_nothing { distro := "redhat" } (fun p => false)
    [("aa:bb:cc:dd:ee:01", "eth0")] []
    [("n1", { id := "n1", ltype := "ipv4_dhcp", mac_address := some "aa:bb:cc:dd:ee:01" })]
    "v" { id := "v", ltype := "ipv4", raw_macs := some ["aa:bb:cc:dd:ee:02"],
          mac_address := some "aa:bb:cc:dd:ee:03" } (by decide)
  ⟨h.1, h.2.1, h.2.2.1, h.2.2.2 (by decide) (fun lm hlm => nomatch hlm)⟩

/-- C3: for a fixed document and inventory the renderers are functions of
their inputs up to ordering freedom: permuting the interface dict (with
duplicate-free interface ids) and the inventory dict (with duplicate-free
macs and duplicate-free device names) leaves every dialect's FileMap
byte-identical — the explicit `sorted(..., key=id)` /
`sorted(..., key=name)` iterations (cmd.py:486/585/795/831/1009/1051/1096/
1206) canonicalise the order, and dict lookups are key-based. -/
theorem renderer_output_order_independent (args : Args) (fs : FS)
    (ints1 ints2 : List (String × Intf)) (sys1 sys2 : List (String × String))
    (hi : List.Perm ints1 ints2) (hid : (ints1.map (fun p => p.2.id)).Nodup)
    (hs : List.Perm sys1 sys2) (hskey : (sys1.map Prod.fst).Nodup)
    (hsname : (sys1.map Prod.snd).Nodup) :
    write_redhat_interfaces args fs ints1 sys1 = write_redhat_interfaces args fs ints2 sys2 ∧
    write_debian_interfaces args fs ints1 sys1 = write_debian_interfaces args fs ints2 sys2 ∧
    write_networkd_interfaces args fs ints1 sys1 = write_networkd_interfaces args fs ints2 sys2 ∧
    write_gentoo_interfaces args fs ints1 sys1 = write_gentoo_interfaces args fs ints2 sys2 := by
  have hg : ∀ m, dictGet m sys1 = dictGet m sys2 := dictGet_perm hs hskey
  have hm : ∀ m, dictMem m sys1 = dictMem m sys2 := fun m => dictMem_perm hs m
  have hps : pySorted leByName sys1 = pySorted leByName sys2 :=
    pySorted_perm_eq leByName leByName_total leByName_trans sys1 sys2 hs
      (leByName_anti_of_nodup hsname)
  exact ⟨(write_redhat_sys_congr args fs ints1 hg hm hps).trans
      (write_redhat_ints_perm args fs sys2 hi hid),
    (write_debian_sys_congr args fs ints1 hg hm hps).trans
      (write_debian_ints_perm args fs sys2 hi hid),
    (write_networkd_sys_congr args fs ints1 hg hm hps).trans
      (write_networkd_ints_perm args fs sys2 hi hid),
    (write_gentoo_sys_congr args fs ints1 hg hm hps).trans
      (write_gentoo_ints_perm args fs sys2 hi hid)⟩

theorem renderer_output_order_independent_witness :
    write_redhat_interfaces { distro := "debian" } (fun p => false)
        [("n1", { id := "n1", ltype := "ipv4_dhcp", mac_address := some "aa:bb:cc:dd:ee:01" }),
         ("n2", { id := "n2", ltype := "ipv4_dhcp", mac_address := some "aa:bb:cc:dd:ee:02" })]
        [("aa:bb:cc:dd:ee:01", "eth0"), ("aa:bb:cc:dd:ee:02", "eth1")] =
      write_redhat_interfaces { distro := "debian" } (fun p => false)
        [("n2", { id := "n2", ltype := "ipv4_dhcp", mac_address := some "aa:bb:cc:dd:ee:02" }),
         ("n1", { id := "n1", ltype := "ipv4_dhcp", mac_address := some "aa:bb:cc:dd:ee:01" })]
        [("aa:bb:cc:dd:ee:02", "eth1"), ("aa:bb:cc:dd:ee:01", "eth0")] ∧
    write_debian_interfaces { distro := "debian" } (fun p => false)
        [("n1", { id := "n1", ltype := "ipv4_dhcp", mac_address := some "aa:bb:cc:dd:ee:01" }),
         ("n2", { id := "n2", ltype := "ipv4_dhcp", mac_address := some "aa:bb:cc:dd:ee:02" })]
        [("aa:bb:cc:dd:ee:01", "eth0"), ("aa:bb:cc:dd:ee:02", "eth1")] =
      write_debian_interfaces { distro := "debian" } (fun p => false)
        [("n2", { id := "n2", ltype := "ipv4_dhcp", mac_address := some "aa:bb:cc:dd:ee:02" }),
         ("n1", { id := "n1", ltype := "ipv4_dhcp", mac_address := some "aa:bb:cc:dd:ee:01" })]
        [("aa:bb:cc:dd:ee:02", "eth1"), ("aa:bb:cc:dd:ee:01", "eth0")] :=
  have h := renderer_output_order_independent { distro := "debian" } (fun p => false)
    [("n1", { id := "n1", ltype := "ipv4_dhcp", mac_address := some "aa:bb:cc:dd:ee:01" }),
     ("n2", { id := "n2", ltype := "ipv4_dhcp", mac_address := some "aa:bb:cc:dd:ee:02" })]
    [("n2", { id := "n2", ltype := "ipv4_dhcp", mac_address := some "aa:bb:cc:dd:ee:02" }),
     ("n1", { id := "n1", ltype := "ipv4_dhcp", mac_address := some "aa:bb:cc:dd:ee:01" })]
    [("aa:bb:cc:dd:ee:01", "eth0"), ("aa:bb:cc:dd:ee:02", "eth1")]
    [("aa:bb:cc:dd:ee:02", "eth1"), ("aa:bb:cc:dd:ee:01", "eth0")]
    (List.Perm.swap _ _ [])
    (by decide) (List.Perm.swap _ _ []) (by decide) (by decide)
  ⟨h.1, h.2.1⟩

/-- C2 (counterexample): an interface whose `raw_macs` has empty
intersection with the inventory still changes the Debian FileMap: its
`mac_address` equals the one inventory mac, so the fallback loop's
`mac in inter_macs` check (cmd.py:1212-1215, computed over the unfiltered
`interfaces` dict) suppresses the DHCP stanza for eth0 that an otherwise
identical run without this interface emits. -/
theorem unmatched_mac_suppresses_debian_dhcp_fallback :
    write_debian_interfaces { distro := "debian" } (fun p => false)
        [("v", { id := "v", ltype := "ipv4", vlan_id := some 100,
                 raw_macs := some ["aa:bb:cc:dd:ee:02"],
                 mac_address := some "aa:bb:cc:dd:ee:01" })]
        [("aa:bb:cc:dd:ee:01", "eth0")] =
      [("/etc/network/interfaces",
        "auto lo\niface lo inet loopback\nsource /etc/network/interfaces.d/*.cfg\n")] ∧
    write_debian_interfaces { distro := "debian" } (fun p => false)
        [] [("aa:bb:cc:dd:ee:01", "eth0")] =
      [("/etc/network/interfaces",
        "auto lo\niface lo inet loopback\nsource /etc/network/interfaces.d/*.cfg\n"),
       ("/etc/network/interfaces.d/eth0.cfg", "auto eth0\niface eth0 inet dhcp\n")] :=
  ⟨rfl, rfl⟩
